import Mathlib

/-
Verification of the XER schedule narrative generator (app.py).

Shallow embedding conventions:
* Python numbers (ints and floats) are modelled exactly as rationals via the
  `Frac` type below: an integer numerator over a positive denominator stored
  as `pden + 1`.  All operations are plain integer arithmetic, so every
  concrete evaluation is kernel-decidable.  `Frac.toRat` interprets a `Frac`
  as a mathematical rational.
* Python record values (fields of the flat XER records) are modelled by
  `Value`: a number, a string, or `None`.
* A Python `dict` record is an association list `Record`; `getField` models
  `record.get(key, default)`.
* A raised exception (ValueError from `float(...)`, ZeroDivisionError,
  IndexError) is modelled by `Option.none`; functions of the source that can
  raise return `Option _`.
-/

/-- Exact rational number with positive denominator `pden + 1`.  Models a
Python numeric value (int or float) without binary rounding. -/
structure Frac where
  num : Int
  pden : Nat
deriving DecidableEq

/-- Denominator of a `Frac`, always positive. -/
def Frac.den (f : Frac) : Int := (f.pden : Int) + 1

/-- Embed an integer. -/
def Frac.ofInt (n : Int) : Frac := ⟨n, 0⟩

/-- Interpretation into the mathematical rationals. -/
def Frac.toRat (f : Frac) : ℚ := (f.num : ℚ) / ((f.pden : ℚ) + 1)

/-- Numeric equality test (cross multiplication), modelling Python `==`. -/
def Frac.beqNum (a b : Frac) : Bool := a.num * b.den = b.num * a.den

/-- Numeric strict-less test, modelling Python `<`. -/
def Frac.blt (a b : Frac) : Bool := a.num * b.den < b.num * a.den

/-- Numeric less-or-equal test, modelling Python `<=`. -/
def Frac.ble (a b : Frac) : Bool := a.num * b.den ≤ b.num * a.den

/-- Addition of exact rationals. -/
def Frac.add (a b : Frac) : Frac :=
  ⟨a.num * b.den + b.num * a.den, (a.pden + 1) * (b.pden + 1) - 1⟩

/-- Absolute value, modelling Python `abs`. -/
def Frac.fabs (f : Frac) : Frac := ⟨(f.num.natAbs : Int), f.pden⟩

/-- Division by a positive natural number (every division in the source is by
a positive constant or by a collection length that was checked nonzero). -/
def Frac.divPos (f : Frac) (k : Nat) : Frac := ⟨f.num, (f.pden + 1) * k - 1⟩

/-- Multiplication by a natural number. -/
def Frac.mulNat (f : Frac) (k : Nat) : Frac := ⟨f.num * (k : Int), f.pden⟩

/-- Floor of a `Frac` as an integer. -/
def Frac.floorI (f : Frac) : Int := f.num.fdiv f.den

/-- Round to nearest integer, ties to even: the rounding used by Python
float formatting. -/
def Frac.roundHalfEven (f : Frac) : Int :=
  let flo := f.floorI
  let rem2 := 2 * (f.num - flo * f.den)
  if rem2 < f.den then flo
  else if f.den < rem2 then flo + 1
  else if flo % 2 = 0 then flo else flo + 1

/-- A field value of a flat XER record: a number, a string, or Python
`None`. -/
inductive Value where
  | vnum (f : Frac)
  | vstr (s : String)
  | vnone
deriving DecidableEq

/-- Python equality `==` between record values: numbers compare numerically,
strings by content, `None` only to itself, and cross-type comparisons are
false. -/
def pyEq : Value → Value → Bool
  | Value.vnum a, Value.vnum b => a.beqNum b
  | Value.vstr a, Value.vstr b => a = b
  | Value.vnone, Value.vnone => true
  | _, _ => false

/-- Python truthiness of a record value (used by `if task.get('cstr_date'):`). -/
def pyTruthy : Value → Bool
  | Value.vnum f => ¬ f.beqNum (Frac.ofInt 0)
  | Value.vstr s => ¬ s.isEmpty
  | Value.vnone => false

/-- Digit character for a digit value below ten. -/
def digitChar10 : Nat → Char
  | 0 => '0' | 1 => '1' | 2 => '2' | 3 => '3' | 4 => '4'
  | 5 => '5' | 6 => '6' | 7 => '7' | 8 => '8' | _ => '9'

/-- Numeric value of a digit character. -/
def digitVal (c : Char) : Nat := c.toNat - 48

/-- Decimal digit characters of a natural number, most significant first;
`fuel`-structured so that it is kernel-reducible. -/
def natCharsAux : Nat → Nat → List Char
  | 0, _ => []
  | fuel + 1, n =>
      if n = 0 then [] else natCharsAux fuel (n / 10) ++ [digitChar10 (n % 10)]

/-- Decimal rendering of a natural number as characters, modelling Python
str(int). -/
def natChars (n : Nat) : List Char := if n = 0 then ['0'] else natCharsAux n n

/-- Decimal rendering of a natural number as a string. -/
def natLit (n : Nat) : String := String.mk (natChars n)

/-- Parse a list of decimal digit characters into a natural number value
(the digits are already validated by the caller). -/
def digitsVal (l : List Char) : Nat := l.foldl (fun a c => 10 * a + digitVal c) 0

/-- Parse of a numeric literal string, modelling Python `float(str)` on the
plain decimal forms `[+-]digits`, `[+-]digits.digits`, `[+-].digits`,
`[+-]digits.` (exotic float syntax such as exponents, infinities and
surrounding whitespace is outside the model).  `none` models a raised
ValueError. -/
def parseNumChars (l : List Char) : Option Frac :=
  let core : List Char → Option Frac := fun l =>
    let ipart := l.takeWhile Char.isDigit
    let rest := l.dropWhile Char.isDigit
    match rest with
    | [] => if ipart.isEmpty then none else some (Frac.ofInt (digitsVal ipart))
    | '.' :: fpart =>
        if fpart.all Char.isDigit ∧ ¬ (ipart.isEmpty ∧ fpart.isEmpty) then
          some ⟨(digitsVal ipart) * (10 : Int) ^ fpart.length + (digitsVal fpart), 10 ^ fpart.length - 1⟩
        else none
    | _ => none
  match l with
  | '-' :: rest => (core rest).map (fun f => ⟨-f.num, f.pden⟩)
  | '+' :: rest => core rest
  | _ => core l

/-- Python `float(value)` on a record value: numbers pass through, strings
are parsed, `None` raises (TypeError, modelled `none`). -/
def pyFloat : Value → Option Frac
  | Value.vnum f => some f
  | Value.vstr s => parseNumChars s.toList
  | Value.vnone => none

/-- Render a `Frac` with one decimal digit, modelling Python format `:.1f`. -/
def fmt1 (f : Frac) : String :=
  let n := (f.mulNat 10).roundHalfEven
  let sign := if n < 0 ∨ (n = 0 ∧ f.num < 0) then "-" else ""
  sign ++ natLit (n.natAbs / 10) ++ "." ++ natLit (n.natAbs % 10)

/-- Python `str(value)` as used when a record value is interpolated into an
f-string.  Numeric values are rendered with one decimal digit (a
simplification of repr(float); no claim interpolates a numeric value). -/
def pyStr : Value → String
  | Value.vstr s => s
  | Value.vnum f => fmt1 f
  | Value.vnone => "None"

/-- Flat record: association list from field name to value, modelling the
Python dict rows produced by the XER decoder. -/
abbrev Record := List (String × Value)

/-- Model of `record.get(key, default)`. -/
def getField (r : Record) (k : String) (d : Value) : Value :=
  match r.find? (fun p => p.1 = k) with
  | some p => p.2
  | none => d

/-- Activity lookup: association from `task_id` value to the task record,
modelling the `task_lookup` dict. -/
abbrev Lookup := List (Value × Record)

/-- Dict lookup in a `Lookup`, using Python value equality. -/
def lookupGet (l : Lookup) (k : Value) : Option Record :=
  (l.find? (fun p => pyEq p.1 k)).map (fun p => p.2)

/-- Source `format_duration`: convert duration from hours to a readable
format (app.py lines 52-61). -/
def format_duration (duration_hours : Value) : String :=
  match pyFloat duration_hours with
  | none => "unknown duration"
  | some hours =>
      let days := hours.divPos 8
      if (Frac.ofInt 1).ble days then fmt1 days ++ " days"
      else fmt1 hours ++ " hours"

/-- Source `format_lag`: convert lag from hours to a readable format
(app.py lines 63-73). -/
def format_lag (lag_hours : Value) : String :=
  match pyFloat lag_hours with
  | none => "unknown lag"
  | some hours =>
      if hours.beqNum (Frac.ofInt 0) then "no lag"
      else if hours.blt (Frac.ofInt 0) then
        format_duration (Value.vnum hours.fabs) ++ " negative lag"
      else format_duration (Value.vnum hours) ++ " lag"

/-- One resolved relationship entry as built by `analyze_relationships`:
the dict with keys name, code, type, lag (app.py lines 85-90 and 94-99). -/
structure RelEntry where
  name : Value
  code : Value
  type : Value
  lag : Value
deriving DecidableEq

/-- Build the entry for one relationship, resolving the other endpoint
`endpointId` through the task lookup with the source defaults
(missing task: name "Unknown Task", code ""). -/
def relEntryFor (endpointId : Value) (rel : Record) (task_lookup : Lookup) : RelEntry :=
  let tsk := (lookupGet task_lookup endpointId).getD []
  { name := getField tsk ("task_name") (Value.vstr ("Unknown Task"))
    code := getField tsk ("task_code") (Value.vstr (""))
    type := getField rel ("pred_type") (Value.vstr (""))
    lag := getField rel ("lag_hr_cnt") (Value.vnum (Frac.ofInt 0)) }

/-- Source `analyze_relationships` (app.py lines 76-101): one pass over the
relationship records, collecting the predecessor entries (relationships whose
`task_id` equals the given id) and the successor entries (relationships whose
`pred_task_id` equals the given id), in input order. -/
def analyze_relationships (task_id : Value) (taskpred_data : List Record)
    (task_lookup : Lookup) : List RelEntry × List RelEntry :=
  match taskpred_data with
  | [] => ([], [])
  | rel :: rest =>
      let tail := analyze_relationships task_id rest task_lookup
      let preds :=
        if pyEq (getField rel ("task_id") Value.vnone) task_id then
          relEntryFor (getField rel ("pred_task_id") Value.vnone) rel task_lookup :: tail.1
        else tail.1
      let succs :=
        if pyEq (getField rel ("pred_task_id") Value.vnone) task_id then
          relEntryFor (getField rel ("task_id") Value.vnone) rel task_lookup :: tail.2
        else tail.2
      (preds, succs)

/-- Aggregate metrics record of the network analyzer (app.py lines 106-121). -/
structure Metrics where
  total_activities : Nat
  activities_no_pred : Nat
  activities_no_succ : Nat
  activities_single_pred : Nat
  activities_single_succ : Nat
  activities_multiple_pred : Nat
  activities_multiple_succ : Nat
  relationships_with_lag : Nat
  relationships_with_negative_lag : Nat
  ss_relationships : Nat
  ff_relationships : Nat
  sf_relationships : Nat
  high_float_activities : Nat
  negative_float_activities : Nat
deriving DecidableEq

/-- Initial metrics: all counters zero except the total activity count. -/
def initMetrics (n : Nat) : Metrics :=
  { total_activities := n
    activities_no_pred := 0
    activities_no_succ := 0
    activities_single_pred := 0
    activities_single_succ := 0
    activities_multiple_pred := 0
    activities_multiple_succ := 0
    relationships_with_lag := 0
    relationships_with_negative_lag := 0
    ss_relationships := 0
    ff_relationships := 0
    sf_relationships := 0
    high_float_activities := 0
    negative_float_activities := 0 }

/-- Counting dict from value to number of occurrences (the `pred_count` and
`succ_count` dicts of the analyzer). -/
abbrev CountMap := List (Value × Nat)

/-- Membership test of a key in a counting dict (`task_id not in pred_count`). -/
def cmMem (m : CountMap) (k : Value) : Bool := (m.find? (fun p => pyEq p.1 k)).isSome

/-- Value of a key in a counting dict, zero when absent. -/
def cmGet (m : CountMap) (k : Value) : Nat :=
  ((m.find? (fun p => pyEq p.1 k)).map (fun p => p.2)).getD 0

/-- Increment of a key in a counting dict, modelling
`d[k] = d.get(k, 0) + 1`. -/
def cmBump : CountMap → Value → CountMap
  | [], k => [(k, 1)]
  | (k2, n) :: rest, k =>
      if pyEq k2 k then (k2, n + 1) :: rest else (k2, n) :: cmBump rest k

/-- First loop body of `analyze_network_logic` (app.py lines 127-149): per
relationship, tally the relationship-kind and lag counters and bump the two
counting dicts.  `none` models the ValueError raised by
`float(rel.get('lag_hr_cnt', 0))` on a non-numeric lag. -/
def relStep (st : Metrics × CountMap × CountMap) (rel : Record) :
    Option (Metrics × CountMap × CountMap) := do
  let (m, pc, sc) := st
  let task_id := getField rel ("task_id") Value.vnone
  let pred_id := getField rel ("pred_task_id") Value.vnone
  let lag ← pyFloat (getField rel ("lag_hr_cnt") (Value.vnum (Frac.ofInt 0)))
  let rel_type := getField rel ("pred_type") (Value.vstr (""))
  let m :=
    if pyEq rel_type (Value.vstr ("PR_SS")) then
      { m with ss_relationships := m.ss_relationships + 1 }
    else if pyEq rel_type (Value.vstr ("PR_FF")) then
      { m with ff_relationships := m.ff_relationships + 1 }
    else if pyEq rel_type (Value.vstr ("PR_SF")) then
      { m with sf_relationships := m.sf_relationships + 1 }
    else m
  let m :=
    if ¬ lag.beqNum (Frac.ofInt 0) then
      { m with relationships_with_lag := m.relationships_with_lag + 1 }
    else m
  let m :=
    if lag.blt (Frac.ofInt 0) then
      { m with relationships_with_negative_lag := m.relationships_with_negative_lag + 1 }
    else m
  return (m, cmBump pc task_id, cmBump sc pred_id)

/-- Second loop body of `analyze_network_logic` (app.py lines 152-175): per
activity, classify its predecessor and successor counts and test its total
float.  `none` models the ValueError raised by
`float(task.get('total_float_hr_cnt', 0))` on a non-numeric float. -/
def taskStep (pc sc : CountMap) (m : Metrics) (task : Record) : Option Metrics := do
  let task_id := getField task ("task_id") Value.vnone
  let total_float ← pyFloat (getField task ("total_float_hr_cnt") (Value.vnum (Frac.ofInt 0)))
  let m :=
    if ¬ cmMem pc task_id then { m with activities_no_pred := m.activities_no_pred + 1 }
    else if cmGet pc task_id = 1 then
      { m with activities_single_pred := m.activities_single_pred + 1 }
    else { m with activities_multiple_pred := m.activities_multiple_pred + 1 }
  let m :=
    if ¬ cmMem sc task_id then { m with activities_no_succ := m.activities_no_succ + 1 }
    else if cmGet sc task_id = 1 then
      { m with activities_single_succ := m.activities_single_succ + 1 }
    else { m with activities_multiple_succ := m.activities_multiple_succ + 1 }
  let m :=
    if (Frac.ofInt 80).blt total_float then
      { m with high_float_activities := m.high_float_activities + 1 }
    else m
  let m :=
    if total_float.blt (Frac.ofInt 0) then
      { m with negative_float_activities := m.negative_float_activities + 1 }
    else m
  return m

/-- Source `analyze_network_logic` (app.py lines 104-177): one pass over the
relationships building the counting dicts and the relationship counters, then
one pass over the activities for the topology and float counters.  `none`
models a ValueError raised while converting a lag or float field. -/
def analyze_network_logic (task_data taskpred_data : List Record) : Option Metrics := do
  let (m, pc, sc) ← taskpred_data.foldlM relStep (initMetrics task_data.length, [], [])
  task_data.foldlM (taskStep pc sc) m

/-- Body of the negative-lag loop of `generate_relationship_warnings`
(app.py lines 185-187): append one warning per predecessor whose converted
lag is negative; `none` models the ValueError of `float(pred.get('lag', 0))`
on a non-numeric lag. -/
def negLagStep (acc : List String) (pred : RelEntry) : Option (List String) := do
  let lag ← pyFloat pred.lag
  if lag.blt (Frac.ofInt 0) then
    return acc ++ ["Warning: Negative lag on relationship with " ++ pyStr pred.name]
  else return acc

/-- Source `generate_relationship_warnings` (app.py lines 180-200): negative
lag warnings per offending predecessor, one summary note for Start-to-Finish
relationships, then the no-predecessor / no-successor vs positive float
warnings.  `none` models the ValueError raised by an unguarded `float(...)`
on a non-numeric lag or total float (note the Python `and` short-circuit:
the total float is only converted when the corresponding list is empty). -/
def generate_relationship_warnings (predecessors successors : List RelEntry)
    (total_float : Value) : Option (List String) := do
  let warnings ← predecessors.foldlM negLagStep ([] : List String)
  let sf_rels := predecessors.filter (fun p => pyEq p.type (Value.vstr ("PR_SF")))
  let warnings := warnings ++
    (if sf_rels.isEmpty then [] else
      ["Note: Activity has " ++ natLit sf_rels.length ++
        " Start-to-Finish relationship(s), which are unusual"])
  let warnings ←
    if predecessors.isEmpty then do
      let tf ← pyFloat total_float
      if (Frac.ofInt 0).blt tf then
        pure (warnings ++ ["Warning: Activity has no predecessors but has positive float"])
      else pure warnings
    else pure warnings
  let warnings ←
    if successors.isEmpty then do
      let tf ← pyFloat total_float
      if (Frac.ofInt 0).blt tf then
        pure (warnings ++ ["Warning: Activity has no successors but has positive float"])
      else pure warnings
    else pure warnings
  return warnings

/-- A decoded XER table: an ordered sequence of flat records
(`table.entries()`). -/
structure Table where
  rows : List Record
deriving DecidableEq

/-- Model of `table.entries()`. -/
def Table.entries (t : Table) : List Record := t.rows

/-- The decoded table set handed to the context builders: the three required
tables and the two optional ones (`'TASKPRED' in tables`,
`'TASKRSRC' in tables`). -/
structure Tables where
  PROJECT : Table
  PROJWBS : Table
  TASK : Table
  TASKPRED : Option Table
  TASKRSRC : Option Table
deriving DecidableEq

/-- Source `interpret_constraint` (app.py lines 16-28). -/
def interpret_constraint (cstr_type : Value) : String :=
  if pyEq cstr_type (Value.vstr ("CS_MSO")) then "Must Start On"
  else if pyEq cstr_type (Value.vstr ("CS_MSOB")) then "Must Start On or Before"
  else if pyEq cstr_type (Value.vstr ("CS_MSOA")) then "Must Start On or After"
  else if pyEq cstr_type (Value.vstr ("CS_MEO")) then "Must End On"
  else if pyEq cstr_type (Value.vstr ("CS_MEOB")) then "Must End On or Before"
  else if pyEq cstr_type (Value.vstr ("CS_MEOA")) then "Must End On or After"
  else if pyEq cstr_type (Value.vstr ("CS_ALAP")) then "As Late As Possible"
  else if pyEq cstr_type (Value.vstr ("CS_ASAP")) then "As Soon As Possible"
  else "No constraint"

/-- Source `interpret_task_type` (app.py lines 30-40). -/
def interpret_task_type (task_type : Value) : String :=
  if pyEq task_type (Value.vstr ("TT_Task")) then "Normal Task"
  else if pyEq task_type (Value.vstr ("TT_Rsrc")) then "Resource Dependent"
  else if pyEq task_type (Value.vstr ("TT_LOE")) then "Level of Effort"
  else if pyEq task_type (Value.vstr ("TT_Mile")) then "Milestone"
  else if pyEq task_type (Value.vstr ("TT_WBS")) then "WBS Summary"
  else if pyEq task_type (Value.vstr ("TT_FinMile")) then "Financial Milestone"
  else "Unknown type"

/-- Source `interpret_relationship_type` (app.py lines 42-50). -/
def interpret_relationship_type (pred_type : Value) : String :=
  if pyEq pred_type (Value.vstr ("PR_FS")) then "Finish to Start"
  else if pyEq pred_type (Value.vstr ("PR_SS")) then "Start to Start"
  else if pyEq pred_type (Value.vstr ("PR_FF")) then "Finish to Finish"
  else if pyEq pred_type (Value.vstr ("PR_SF")) then "Start to Finish"
  else "Unknown relationship"

/-- Filter of a task list by a predicate on the converted float of one field
(the critical-task list comprehensions of both context builders); `none`
models the ValueError raised by `float(...)` on a non-numeric field. -/
def filterFloat (p : Frac → Bool) (key : String) (dflt : Value) :
    List Record → Option (List Record)
  | [] => some []
  | t :: ts => do
      let q ← pyFloat (getField t key dflt)
      let rest ← filterFloat p key dflt ts
      if p q then return t :: rest else return rest

/-- Sum of the converted total floats of a task list with default 0, as in
`sum(float(t.get('total_float_hr_cnt', 0)) for t in tasks)`; `none` models a
ValueError. -/
def sumFloats : List Record → Option Frac
  | [] => some (Frac.ofInt 0)
  | t :: ts => do
      let q ← pyFloat (getField t ("total_float_hr_cnt") (Value.vnum (Frac.ofInt 0)))
      let rest ← sumFloats ts
      return q.add rest

/-- The critical-task comprehension shared verbatim by both context builders:
tasks whose `float(task.get('total_float_hr_cnt', 999999)) <= 0`. -/
def criticalTasks (tasks : List Record) : Option (List Record) :=
  filterFloat (fun q => q.ble (Frac.ofInt 0)) ("total_float_hr_cnt")
    (Value.vnum (Frac.ofInt 999999)) tasks

/-- The key-dates sub-object of the semantic context. -/
structure KeyDates where
  planned_start : Value
  planned_finish : Value
  current_finish : Value
  data_date : Value
deriving DecidableEq

/-- The project-identity sub-object of the semantic context. -/
structure ProjectIdentity where
  name : Value
  purpose : String
  key_dates : KeyDates
deriving DecidableEq

/-- A phase entry of the semantic context. -/
structure PhaseEntry where
  name : Value
  code : Value
deriving DecidableEq

/-- A milestone entry of the semantic context. -/
structure MilestoneEntry where
  name : Value
  date : Value
deriving DecidableEq

/-- The schedule-structure sub-object of the semantic context. -/
structure ScheduleStructure where
  phases : List PhaseEntry
  major_milestones : List MilestoneEntry
  key_deliverables : List Value
deriving DecidableEq

/-- A schedule-risk entry of the semantic context. -/
structure RiskEntry where
  activity : Value
  risk : String
deriving DecidableEq

/-- The timing-analysis sub-object of the semantic context. -/
structure TimingAnalysis where
  critical_path_description : String
  float_patterns : String
  schedule_risks : List RiskEntry
deriving DecidableEq

/-- A key-dependency entry of the execution strategy (dict keys "from" and
"type" in the source). -/
structure DepEntry where
  fromTask : Value
  depType : String
deriving DecidableEq

/-- The execution-strategy sub-object, present only when TASKRSRC exists. -/
structure ExecutionStrategy where
  phase_sequence : String
  resource_strategy : String
  key_dependencies : List DepEntry
deriving DecidableEq

/-- The full semantic context object. -/
structure SemanticContext where
  project_identity : ProjectIdentity
  schedule_structure : ScheduleStructure
  timing_analysis : TimingAnalysis
  execution_strategy : Option ExecutionStrategy
deriving DecidableEq

/-- Source `generate_semantic_schedule_context` (app.py lines 225-271).
`none` models an exception: IndexError on an empty PROJECT table, ValueError
on a non-numeric float field, or the unguarded ZeroDivisionError of the
average-float computation when the activity collection is empty. -/
def generate_semantic_schedule_context (tables : Tables) : Option SemanticContext := do
  let project ← tables.PROJECT.entries.head?
  let wbs := tables.PROJWBS.entries
  let tasks := tables.TASK.entries
  let milestones := tasks.filter
    (fun t => pyEq (getField t ("task_type") Value.vnone) (Value.vstr ("TT_Mile")))
  let critical_tasks ← criticalTasks tasks
  let floatSum ← sumFloats tasks
  let avgFloat ← if tasks.length = 0 then none else some (floatSum.divPos tasks.length)
  let risks ← criticalTasks tasks
  let context : SemanticContext :=
    { project_identity :=
        { name := getField project ("proj_short_name") (Value.vstr (""))
          purpose := "Schedule exported from P6 version " ++
            pyStr (getField project ("export_version") (Value.vstr ("")))
          key_dates :=
            { planned_start := getField project ("plan_start_date") Value.vnone
              planned_finish := getField project ("plan_end_date") Value.vnone
              current_finish := getField project ("scd_end_date") Value.vnone
              data_date := getField project ("last_recalc_date") Value.vnone } }
      schedule_structure :=
        { phases := wbs.map (fun w =>
            { name := getField w ("wbs_name") Value.vnone
              code := getField w ("wbs_short_name") Value.vnone })
          major_milestones := milestones.map (fun m =>
            { name := getField m ("task_name") Value.vnone
              date := getField m ("target_end_date") Value.vnone })
          key_deliverables :=
            (wbs.filter (fun w => ¬ pyEq (getField w ("proj_node_flag") Value.vnone)
              (Value.vstr ("Y")))).map (fun w => getField w ("wbs_name") Value.vnone) }
      timing_analysis :=
        { critical_path_description := "The schedule contains " ++
            natLit critical_tasks.length ++ " critical activities"
          float_patterns := "Average float across activities: " ++
            fmt1 avgFloat ++ " hours"
          schedule_risks := risks.map (fun t =>
            { activity := getField t ("task_name") Value.vnone
              risk := "Critical" }) }
      execution_strategy := tables.TASKRSRC.map (fun rsrcTable =>
        { phase_sequence := "Sequential execution through defined phases"
          resource_strategy := "Schedule contains " ++
            natLit rsrcTable.entries.length ++ " resource assignments"
          key_dependencies := critical_tasks.map (fun t =>
            { fromTask := getField t ("task_name") Value.vnone
              depType := "Critical" }) }) }
  return context

/-- The timing-questions sub-object of the Q&A context. -/
structure TimingQuestions where
  when_will_project_finish : String
  what_is_driving_completion : String
  which_activities_are_critical : List Value
deriving DecidableEq

/-- The progress-questions sub-object of the Q&A context. -/
structure ProgressQuestions where
  what_is_overall_progress : String
  how_many_activities_remain : String
deriving DecidableEq

/-- The resource-questions sub-object, present only when TASKRSRC exists. -/
structure ResourceQuestions where
  what_are_key_resources : List Value
  how_many_resources : String
deriving DecidableEq

/-- The full Q&A context object. -/
structure QaContext where
  timing_questions : TimingQuestions
  progress_questions : ProgressQuestions
  resource_questions : Option ResourceQuestions
deriving DecidableEq

/-- Source `generate_qa_context` (app.py lines 274-303).  `none` models an
exception: IndexError on an empty PROJECT table, ValueError on a non-numeric
float field, or the unguarded ZeroDivisionError of the
completion-percentage computation when the activity collection is empty. -/
def generate_qa_context (tables : Tables) : Option QaContext := do
  let project ← tables.PROJECT.entries.head?
  let tasks := tables.TASK.entries
  let total_tasks := tasks.length
  let critical_tasks ← criticalTasks tasks
  let completed_tasks := tasks.filter
    (fun t => pyEq (getField t ("status_code") Value.vnone) (Value.vstr ("TK_Complete")))
  let progressPct ← if total_tasks = 0 then none
    else some (((Frac.ofInt completed_tasks.length).divPos total_tasks).mulNat 100)
  let qa : QaContext :=
    { timing_questions :=
        { when_will_project_finish := "Based on current schedule, the project will finish on "
            ++ pyStr (getField project ("scd_end_date") Value.vnone)
          what_is_driving_completion := "There are " ++ natLit critical_tasks.length ++
            " critical activities driving project completion"
          which_activities_are_critical :=
            critical_tasks.map (fun t => getField t ("task_name") Value.vnone) }
      progress_questions :=
        { what_is_overall_progress := fmt1 progressPct ++ "% of activities are complete"
          how_many_activities_remain := natLit (total_tasks - completed_tasks.length) ++
            " activities remain to be completed" }
      resource_questions := tables.TASKRSRC.map (fun rsrcTable =>
        let resources := rsrcTable.entries
        { what_are_key_resources :=
            (resources.take 5).map (fun r => getField r ("rsrc_name") Value.vnone)
          how_many_resources := "Schedule contains " ++
            natLit ((resources.map (fun r => getField r ("rsrc_id") Value.vnone)).dedup.length)
            ++ " unique resources" }) }
  return qa

/-- One line of the network-analysis summary header: either fixed text or a
labelled integer field. -/
inductive SummaryRow where
  | text (t : String)
  | field (label : String) (n : Nat)

/-- Characters of one summary line. -/
def renderRow : SummaryRow → List Char
  | SummaryRow.text t => t.toList
  | SummaryRow.field label n => label.toList ++ natChars n

/-- The lines of the network-analysis summary header, in the fixed order of
the source f-string (app.py lines 320-341), including its leading and
trailing blank line. -/
def summaryRows (m : Metrics) : List SummaryRow :=
  [SummaryRow.text (""),
   SummaryRow.text ("Schedule Network Analysis:"),
   SummaryRow.field ("Total Activities: ") m.total_activities,
   SummaryRow.text ("Network Logic:"),
   SummaryRow.field ("- Activities without predecessors: ") m.activities_no_pred,
   SummaryRow.field ("- Activities without successors: ") m.activities_no_succ,
   SummaryRow.field ("- Activities with single predecessor: ") m.activities_single_pred,
   SummaryRow.field ("- Activities with multiple predecessors: ") m.activities_multiple_pred,
   SummaryRow.field ("- Activities with single successor: ") m.activities_single_succ,
   SummaryRow.field ("- Activities with multiple successors: ") m.activities_multiple_succ,
   SummaryRow.text (""),
   SummaryRow.text ("Relationship Types:"),
   SummaryRow.field ("- Start-to-Start relationships: ") m.ss_relationships,
   SummaryRow.field ("- Finish-to-Finish relationships: ") m.ff_relationships,
   SummaryRow.field ("- Start-to-Finish relationships: ") m.sf_relationships,
   SummaryRow.field ("- Relationships with lag: ") m.relationships_with_lag,
   SummaryRow.field ("- Relationships with negative lag: ") m.relationships_with_negative_lag,
   SummaryRow.text (""),
   SummaryRow.text ("Schedule Health Indicators:"),
   SummaryRow.field ("- Activities with high float (>10 days): ") m.high_float_activities,
   SummaryRow.field ("- Activities with negative float: ") m.negative_float_activities,
   SummaryRow.text ("")]

/-- Join lines with newline characters. -/
def joinLines : List (List Char) → List Char
  | [] => []
  | [l] => l
  | l :: ls => l ++ '\n' :: joinLines ls

/-- The network-analysis summary header text built by
`generate_activity_narrative` (app.py lines 320-341). -/
def network_summary (m : Metrics) : String :=
  String.mk (joinLines ((summaryRows m).map renderRow))

/-- Split a character list at newline characters (inverse of `joinLines`;
part of the spec-side parser for the round-trip claim). -/
def splitLines : List Char → List (List Char)
  | [] => [[]]
  | c :: cs =>
      if c = '\n' then [] :: splitLines cs
      else
        match splitLines cs with
        | [] => [[c]]
        | l :: ls => (c :: l) :: ls

/-- Test whether `p` is an initial segment of `l`. -/
def takesLead (p l : List Char) : Bool := decide (l.take p.length = p)

/-- First line beginning with `label`, with the label removed (spec-side
parser for the round-trip claim). -/
def findLine (label : List Char) : List (List Char) → Option (List Char)
  | [] => none
  | l :: ls => if takesLead label l then some (l.drop label.length) else findLine label ls

/-- Parse a nonempty all-digit character list as a natural number (spec-side
parser for the round-trip claim). -/
def parseNatDigits (l : List Char) : Option Nat :=
  if l.isEmpty then none
  else if l.all Char.isDigit then some (digitsVal l) else none

/-- Spec-side parser of the round-trip claim: find the line of the rendered
text that begins with the given field label and read the integer after it. -/
def parseField (label : String) (s : String) : Option Nat :=
  (findLine label.toList (splitLines s.toList)).bind parseNatDigits

/-- Status label of an activity (app.py lines 346-348). -/
def statusOf (task : Record) : String :=
  if pyEq (getField task ("status_code") (Value.vstr (""))) (Value.vstr ("TK_Complete")) then
    "completed"
  else if pyEq (getField task ("status_code") (Value.vstr (""))) (Value.vstr ("TK_Active")) then
    "in progress"
  else "not started"

/-- Head of the per-activity narrative block (app.py lines 358-371), up to
and including the "- Total Float: " label. -/
def activity_head (task : Record) : String :=
  "\nActivity \x27" ++ pyStr (getField task ("task_name") (Value.vstr (""))) ++
  "\x27 (ID: " ++ pyStr (getField task ("task_code") (Value.vstr (""))) ++
  ")\nType: " ++ interpret_task_type (getField task ("task_type") (Value.vstr (""))) ++
  "\nStatus: " ++ statusOf task ++
  "\n\nTimeline Information:\n- Planned Start: " ++
  pyStr (getField task ("target_start_date") (Value.vstr ("unknown"))) ++
  "\n- Planned Finish: " ++ pyStr (getField task ("target_end_date") (Value.vstr ("unknown"))) ++
  "\n- Actual Start: " ++ pyStr (getField task ("act_start_date") (Value.vstr ("Not started"))) ++
  "\n- Actual Finish: " ++ pyStr (getField task ("act_end_date") (Value.vstr ("Not completed"))) ++
  "\n- Original Duration: " ++
  format_duration (getField task ("target_drtn_hr_cnt") (Value.vnum (Frac.ofInt 0))) ++
  "\n- Remaining Duration: " ++
  format_duration (getField task ("remain_drtn_hr_cnt") (Value.vnum (Frac.ofInt 0))) ++
  "\n\nSchedule Analysis:\n- Total Float: "

/-- Tail of the per-activity narrative block (app.py lines 374-408): calendar
and constraint lines, optional constraint date, relationship listings,
boundary notes, relationship count summary and warning section. -/
def activity_tail (task : Record) (predecessors successors : List RelEntry)
    (warnings : List String) : String :=
  "\n- Calendar: " ++ pyStr (getField task ("clndr_id") (Value.vstr ("Default calendar"))) ++
  "\n- Constraint: " ++ interpret_constraint (getField task ("cstr_type") (Value.vstr (""))) ++
  (if pyTruthy (getField task ("cstr_date") Value.vnone) then
    "\n- Constraint Date: " ++ pyStr (getField task ("cstr_date") Value.vnone) else "") ++
  (if predecessors.isEmpty then "" else
    "\n\nPredecessor Relationships:" ++
    String.join (predecessors.map (fun p => "\n- " ++ pyStr p.name ++ " (ID: " ++
      pyStr p.code ++ ") - " ++ interpret_relationship_type p.type ++ " with " ++
      format_lag p.lag))) ++
  (if successors.isEmpty then "" else
    "\n\nSuccessor Relationships:" ++
    String.join (successors.map (fun s => "\n- " ++ pyStr s.name ++ " (ID: " ++
      pyStr s.code ++ ") - " ++ interpret_relationship_type s.type ++ " with " ++
      format_lag s.lag))) ++
  (if predecessors.isEmpty then "\n\nThis is a Start activity with no predecessors." else "") ++
  (if successors.isEmpty then "\n\nThis is a Finish activity with no successors." else "") ++
  "\nTotal Relationships: " ++ natLit (predecessors.length + successors.length) ++
  " (" ++ natLit predecessors.length ++ " predecessors, " ++ natLit successors.length ++
  " successors)" ++
  (if warnings.isEmpty then "" else
    "\n\nLogic Analysis:" ++ String.join (warnings.map (fun w => "\n- " ++ w)))

/-- One per-activity narrative block of `generate_activity_narrative`
(app.py lines 344-410).  `none` models the ValueError that
`generate_relationship_warnings` can raise. -/
def activity_block (task_lookup : Lookup) (taskpred_data : List Record)
    (task : Record) : Option String := do
  let task_id := getField task ("task_id") Value.vnone
  let (predecessors, successors) := analyze_relationships task_id taskpred_data task_lookup
  let warnings ← generate_relationship_warnings predecessors successors
    (getField task ("total_float_hr_cnt") (Value.vnum (Frac.ofInt 0)))
  return activity_head task ++
    format_duration (getField task ("total_float_hr_cnt") (Value.vnum (Frac.ofInt 0))) ++
    "\n- Free Float: " ++
    format_duration (getField task ("free_float_hr_cnt") (Value.vnum (Frac.ofInt 0))) ++
    activity_tail task predecessors successors warnings

/-- The task lookup dict built by `generate_activity_narrative` (app.py line
311); reversed so that a later duplicate `task_id` wins as in a Python dict
comprehension. -/
def buildLookup (task_data : List Record) : Lookup :=
  (task_data.map (fun t => (getField t ("task_id") Value.vnone, t))).reverse

/-- Source `generate_activity_narrative` (app.py lines 306-412): network
summary header followed by the per-activity blocks joined with the visible
separator. -/
def generate_activity_narrative (task_data : List Record) (tables : Tables) :
    Option String := do
  let task_lookup := buildLookup task_data
  let taskpred_data := match tables.TASKPRED with
    | some t => t.entries
    | none => []
  let network_metrics ← analyze_network_logic task_data taskpred_data
  let narratives ← task_data.mapM (activity_block task_lookup taskpred_data)
  return network_summary network_metrics ++ "\n\nDetailed Activity Information:\n" ++
    String.intercalate ("\n\n---\n") narratives

/-- The denominator of a `Frac` is positive in ℚ. -/
lemma Frac.denQ_pos (f : Frac) : (0 : ℚ) < (f.pden : ℚ) + 1 := by positivity

/-- The strict-less test agrees with the rational interpretation. -/
lemma Frac.blt_iff (a b : Frac) : a.blt b = true ↔ a.toRat < b.toRat := by
  simp only [Frac.blt, decide_eq_true_eq, Frac.toRat, Frac.den]
  rw [div_lt_div_iff₀ (Frac.denQ_pos a) (Frac.denQ_pos b)]
  constructor <;> intro h <;> exact_mod_cast h

/-- The less-or-equal test agrees with the rational interpretation. -/
lemma Frac.ble_iff (a b : Frac) : a.ble b = true ↔ a.toRat ≤ b.toRat := by
  simp only [Frac.ble, decide_eq_true_eq, Frac.toRat, Frac.den]
  rw [div_le_div_iff₀ (Frac.denQ_pos a) (Frac.denQ_pos b)]
  constructor <;> intro h <;> exact_mod_cast h

/-- The equality test agrees with the rational interpretation. -/
lemma Frac.beqNum_iff (a b : Frac) : a.beqNum b = true ↔ a.toRat = b.toRat := by
  simp only [Frac.beqNum, decide_eq_true_eq, Frac.toRat, Frac.den]
  rw [div_eq_div_iff (ne_of_gt (Frac.denQ_pos a)) (ne_of_gt (Frac.denQ_pos b))]
  constructor <;> intro h <;> exact_mod_cast h

/-- Rational interpretation of an embedded integer. -/
lemma Frac.toRat_ofInt (n : Int) : (Frac.ofInt n).toRat = (n : ℚ) := by
  simp [Frac.ofInt, Frac.toRat]

/-- Rational interpretation of the absolute value. -/
lemma Frac.toRat_fabs (f : Frac) : f.fabs.toRat = |f.toRat| := by
  simp only [Frac.fabs, Frac.toRat]
  rw [abs_div, abs_of_pos (Frac.denQ_pos f)]
  push_cast [Int.cast_natAbs]
  norm_cast

/-- Rational interpretation of division by a positive natural number. -/
lemma Frac.toRat_divPos (f : Frac) (k : Nat) (hk : k ≠ 0) :
    (f.divPos k).toRat = f.toRat / (k : ℚ) := by
  simp only [Frac.divPos, Frac.toRat]
  have h : ((f.pden + 1) * k - 1 : ℕ) + 1 = (f.pden + 1) * k :=
    Nat.succ_pred_eq_of_pos (Nat.mul_pos (Nat.succ_pos _) (Nat.pos_of_ne_zero hk))
  have h2 : (((f.pden + 1) * k - 1 : ℕ) : ℚ) + 1 = ((f.pden : ℚ) + 1) * (k : ℚ) := by
    rw [show (((f.pden + 1) * k - 1 : ℕ) : ℚ) + 1 = ((((f.pden + 1) * k - 1 : ℕ) + 1 : ℕ) : ℚ) by
      push_cast; ring]
    rw [h]
    push_cast; ring
  rw [h2, div_mul_eq_div_div]

/-- Rational interpretation of addition. -/
lemma Frac.toRat_add (a b : Frac) : (a.add b).toRat = a.toRat + b.toRat := by
  simp only [Frac.add, Frac.toRat, Frac.den]
  have h : ((a.pden + 1) * (b.pden + 1) - 1 : ℕ) + 1 = (a.pden + 1) * (b.pden + 1) :=
    Nat.succ_pred_eq_of_pos (Nat.mul_pos (Nat.succ_pos _) (Nat.succ_pos _))
  have h2 : (((a.pden + 1) * (b.pden + 1) - 1 : ℕ) : ℚ) + 1 =
      ((a.pden : ℚ) + 1) * ((b.pden : ℚ) + 1) := by
    rw [show (((a.pden + 1) * (b.pden + 1) - 1 : ℕ) : ℚ) + 1 =
        ((((a.pden + 1) * (b.pden + 1) - 1 : ℕ) + 1 : ℕ) : ℚ) by push_cast; ring]
    rw [h]
    push_cast; ring
  rw [h2]
  field_simp

/-- Rational interpretation of multiplication by a natural number. -/
lemma Frac.toRat_mulNat (f : Frac) (k : Nat) : (f.mulNat k).toRat = f.toRat * (k : ℚ) := by
  simp only [Frac.mulNat, Frac.toRat]
  push_cast
  ring

/-- Helper: the days test of `format_duration` holds exactly when the
rational day count is at least one. -/
lemma ble_one_divPos_iff (q : Frac) :
    (Frac.ofInt 1).ble (q.divPos 8) = true ↔ 1 ≤ q.toRat / 8 := by
  rw [Frac.ble_iff, Frac.toRat_ofInt, Frac.toRat_divPos q 8 (by norm_num)]
  norm_num

/-- C5: `format_duration` never raises: a value that parses as a number is
interpreted as hours and converted to days at 8 hours per working day,
rendered in days when the day count is at least 1 (boundary inclusive) and in
hours otherwise; a value that does not parse yields "unknown duration"; in
particular `format_duration 8 = "1.0 days"`, `format_duration 4 =
"4.0 hours"` and `format_duration "abc" = "unknown duration"`. -/
theorem format_duration_total_spec :
    (∀ v : Value, pyFloat v = none → format_duration v = "unknown duration") ∧
    (∀ (v : Value) (q : Frac), pyFloat v = some q → 1 ≤ q.toRat / 8 →
      format_duration v = fmt1 (q.divPos 8) ++ " days") ∧
    (∀ (v : Value) (q : Frac), pyFloat v = some q → q.toRat / 8 < 1 →
      format_duration v = fmt1 q ++ " hours") ∧
    format_duration (Value.vnum (Frac.ofInt 8)) = "1.0 days" ∧
    format_duration (Value.vnum (Frac.ofInt 4)) = "4.0 hours" ∧
    format_duration (Value.vstr ("abc")) = "unknown duration" := by
  refine ⟨?_, ?_, ?_, by decide, by decide, by decide⟩
  · intro v h
    simp [format_duration, h]
  · intro v q h hq
    have hb : (Frac.ofInt 1).ble (q.divPos 8) = true := (ble_one_divPos_iff q).mpr hq
    simp [format_duration, h, hb]
  · intro v q h hq
    have hb : (Frac.ofInt 1).ble (q.divPos 8) = false := by
      rw [Bool.eq_false_iff]
      intro hcon
      exact absurd ((ble_one_divPos_iff q).mp hcon) (not_le.mpr hq)
    simp [format_duration, h, hb]

/-- C5 witness: the general clauses of the totality theorem instantiated at
concrete inputs. -/
theorem format_duration_total_spec_witness :
    format_duration (Value.vnone) = "unknown duration" ∧
    format_duration (Value.vnum (Frac.ofInt 9)) = fmt1 ((Frac.ofInt 9).divPos 8) ++ " days" ∧
    format_duration (Value.vnum (Frac.ofInt 3)) = fmt1 (Frac.ofInt 3) ++ " hours" :=
  ⟨format_duration_total_spec.1 Value.vnone (by decide),
   format_duration_total_spec.2.1 (Value.vnum (Frac.ofInt 9)) (Frac.ofInt 9) (by decide)
     (by norm_num [Frac.toRat, Frac.ofInt]),
   format_duration_total_spec.2.2.1 (Value.vnum (Frac.ofInt 3)) (Frac.ofInt 3) (by decide)
     (by norm_num [Frac.toRat, Frac.ofInt])⟩

/-- C4 counterexample: 16 hours is two 8-hour working days, so
`format_lag (-16)` renders "2.0 days negative lag", not the claimed
"1.0 days negative lag" (and symmetrically for `format_lag 16`). -/
theorem format_lag_minus16_counterexample :
    format_lag (Value.vnum (Frac.ofInt (-16))) = "2.0 days negative lag" ∧
    ¬ (format_lag (Value.vnum (Frac.ofInt (-16))) = "1.0 days negative lag" ∧
       format_lag (Value.vnum (Frac.ofInt 16)) = "1.0 days lag") := by
  decide

/-- C4 (amended): `format_lag` is total: "unknown lag" when the value does
not parse, "no lag" at zero, `format_duration` of the absolute value plus
" negative lag" when negative, and `format_duration` of the value plus
" lag" otherwise; in particular `format_lag 0 = "no lag"`,
`format_lag (-16) = "2.0 days negative lag"` and
`format_lag 16 = "2.0 days lag"`. -/
theorem format_lag_total_spec :
    (∀ v : Value, pyFloat v = none → format_lag v = "unknown lag") ∧
    (∀ (v : Value) (q : Frac), pyFloat v = some q → q.toRat = 0 →
      format_lag v = "no lag") ∧
    (∀ (v : Value) (q : Frac), pyFloat v = some q → q.toRat < 0 →
      format_lag v = format_duration (Value.vnum q.fabs) ++ " negative lag") ∧
    (∀ (v : Value) (q : Frac), pyFloat v = some q → 0 < q.toRat →
      format_lag v = format_duration (Value.vnum q) ++ " lag") ∧
    format_lag (Value.vnum (Frac.ofInt 0)) = "no lag" ∧
    format_lag (Value.vnum (Frac.ofInt (-16))) = "2.0 days negative lag" ∧
    format_lag (Value.vnum (Frac.ofInt 16)) = "2.0 days lag" := by
  refine ⟨?_, ?_, ?_, ?_, by decide, by decide, by decide⟩
  · intro v h
    simp [format_lag, h]
  · intro v q h hq
    have hb : q.beqNum (Frac.ofInt 0) = true := by
      rw [Frac.beqNum_iff, Frac.toRat_ofInt]
      simpa using hq
    simp [format_lag, h, hb]
  · intro v q h hq
    have hb : q.beqNum (Frac.ofInt 0) = false := by
      rw [Bool.eq_false_iff]
      intro hcon
      rw [Frac.beqNum_iff, Frac.toRat_ofInt] at hcon
      simp at hcon
      exact absurd hcon (ne_of_lt hq)
    have hlt : q.blt (Frac.ofInt 0) = true := by
      rw [Frac.blt_iff, Frac.toRat_ofInt]
      simpa using hq
    simp [format_lag, h, hb, hlt]
  · intro v q h hq
    have hb : q.beqNum (Frac.ofInt 0) = false := by
      rw [Bool.eq_false_iff]
      intro hcon
      rw [Frac.beqNum_iff, Frac.toRat_ofInt] at hcon
      simp at hcon
      exact absurd hcon (ne_of_gt hq)
    have hlt : q.blt (Frac.ofInt 0) = false := by
      rw [Bool.eq_false_iff]
      intro hcon
      rw [Frac.blt_iff, Frac.toRat_ofInt] at hcon
      simp at hcon
      exact absurd hcon (not_lt.mpr (le_of_lt hq))
    simp [format_lag, h, hb, hlt]

/-- C4 witness: the general clauses of the amended lag theorem instantiated
at concrete inputs. -/
theorem format_lag_total_spec_witness :
    format_lag (Value.vstr ("zz")) = "unknown lag" ∧
    format_lag (Value.vnum (Frac.ofInt 0)) = "no lag" ∧
    format_lag (Value.vnum (Frac.ofInt (-4))) =
      format_duration (Value.vnum (Frac.ofInt (-4)).fabs) ++ " negative lag" ∧
    format_lag (Value.vnum (Frac.ofInt 4)) =
      format_duration (Value.vnum (Frac.ofInt 4)) ++ " lag" :=
  ⟨format_lag_total_spec.1 (Value.vstr ("zz")) (by decide),
   format_lag_total_spec.2.1 (Value.vnum (Frac.ofInt 0)) (Frac.ofInt 0) (by decide)
     (by norm_num [Frac.toRat, Frac.ofInt]),
   format_lag_total_spec.2.2.1 (Value.vnum (Frac.ofInt (-4))) (Frac.ofInt (-4)) (by decide)
     (by norm_num [Frac.toRat, Frac.ofInt]),
   format_lag_total_spec.2.2.2.1 (Value.vnum (Frac.ofInt 4)) (Frac.ofInt 4) (by decide)
     (by norm_num [Frac.toRat, Frac.ofInt])⟩

/-- C10: a value parsing to a negative number of hours is always rendered by
`format_duration` in the hours branch (the days branch needs a day count of
at least one), e.g. `format_duration (-16) = "-16.0 hours"`; and every
per-activity narrative block embeds its total and free float through
`format_duration`, so negative floats are rendered in hours there. -/
theorem format_duration_negative_in_hours :
    (∀ (v : Value) (q : Frac), pyFloat v = some q → q.toRat < 0 →
      format_duration v = fmt1 q ++ " hours") ∧
    format_duration (Value.vnum (Frac.ofInt (-16))) = "-16.0 hours" ∧
    (∀ (lk : Lookup) (rels : List Record) (t : Record) (s : String),
      activity_block lk rels t = some s →
      s = activity_head t ++
        format_duration (getField t ("total_float_hr_cnt") (Value.vnum (Frac.ofInt 0))) ++
        "\n- Free Float: " ++
        format_duration (getField t ("free_float_hr_cnt") (Value.vnum (Frac.ofInt 0))) ++
        activity_tail t
          (analyze_relationships (getField t ("task_id") Value.vnone) rels lk).1
          (analyze_relationships (getField t ("task_id") Value.vnone) rels lk).2
          ((generate_relationship_warnings
            (analyze_relationships (getField t ("task_id") Value.vnone) rels lk).1
            (analyze_relationships (getField t ("task_id") Value.vnone) rels lk).2
            (getField t ("total_float_hr_cnt") (Value.vnum (Frac.ofInt 0)))).getD [])) := by
  refine ⟨?_, by decide, ?_⟩
  · intro v q h hq
    exact format_duration_total_spec.2.2.1 v q h
      (lt_of_lt_of_le (div_neg_of_neg_of_pos hq (by norm_num)) (by norm_num))
  · intro lk rels t s h
    unfold activity_block at h
    cases hw : generate_relationship_warnings
        (analyze_relationships (getField t ("task_id") Value.vnone) rels lk).1
        (analyze_relationships (getField t ("task_id") Value.vnone) rels lk).2
        (getField t ("total_float_hr_cnt") (Value.vnum (Frac.ofInt 0))) with
    | none => simp [hw] at h
    | some w =>
        simp [hw] at h
        simp only [Option.getD_some]
        exact h.symm

set_option maxRecDepth 10000 in
/-- C10 witness: the hours clause instantiated at -16 hours, and the block
decomposition instantiated at an empty task record. -/
theorem format_duration_negative_in_hours_witness :
    format_duration (Value.vnum (Frac.ofInt (-16))) = fmt1 (Frac.ofInt (-16)) ++ " hours" ∧
    activity_block [] [] [] = some (activity_head [] ++
      format_duration (getField [] ("total_float_hr_cnt") (Value.vnum (Frac.ofInt 0))) ++
      "\n- Free Float: " ++
      format_duration (getField [] ("free_float_hr_cnt") (Value.vnum (Frac.ofInt 0))) ++
      activity_tail []
        (analyze_relationships (getField [] ("task_id") Value.vnone) [] []).1
        (analyze_relationships (getField [] ("task_id") Value.vnone) [] []).2
        ((generate_relationship_warnings
          (analyze_relationships (getField [] ("task_id") Value.vnone) [] []).1
          (analyze_relationships (getField [] ("task_id") Value.vnone) [] []).2
          (getField [] ("total_float_hr_cnt") (Value.vnum (Frac.ofInt 0)))).getD [])) := by
  constructor
  · exact format_duration_negative_in_hours.1 (Value.vnum (Frac.ofInt (-16)))
      (Frac.ofInt (-16)) (by decide) (by norm_num [Frac.toRat, Frac.ofInt])
  · have hs : activity_block ([] : Lookup) ([] : List Record) ([] : Record) =
        some (activity_head [] ++ format_duration (Value.vnum (Frac.ofInt 0)) ++
          "\n- Free Float: " ++ format_duration (Value.vnum (Frac.ofInt 0)) ++
          activity_tail [] [] [] []) := by decide
    rw [hs]
    rw [← format_duration_negative_in_hours.2.2 [] [] [] _ hs]

/-- C6 counterexample: a non-numeric lag or total-float string makes the
network analyzer and the warning generator raise a ValueError (modelled by
`none`), contrary to the claim that no core operation raises on such input. -/
theorem numeric_field_raise_counterexample :
    analyze_network_logic [] [[(("lag_hr_cnt" : String), Value.vstr ("abc"))]] = none ∧
    generate_relationship_warnings [] [] (Value.vstr ("abc")) = none := by
  decide

/-- C6 (amended): the formatters recover a malformed numeric field locally
("unknown duration" / "unknown lag", never raising), but
`analyze_network_logic` and `generate_relationship_warnings` convert lag and
total-float fields with an unguarded `float(...)` and do raise (modelled
`none`) when such a field holds a non-numeric string. -/
theorem numeric_field_recovery_amended :
    (∀ v : Value, pyFloat v = none →
      format_duration v = "unknown duration" ∧ format_lag v = "unknown lag") ∧
    analyze_network_logic [] [[(("lag_hr_cnt" : String), Value.vstr ("abc"))]] = none ∧
    analyze_network_logic [[(("total_float_hr_cnt" : String), Value.vstr ("abc"))]] [] = none ∧
    generate_relationship_warnings
      [{ name := Value.vstr ("P"), code := Value.vstr (""), type := Value.vstr (""),
         lag := Value.vstr ("abc") }] [] (Value.vnum (Frac.ofInt 0)) = none ∧
    generate_relationship_warnings [] [] (Value.vstr ("abc")) = none := by
  refine ⟨?_, by decide, by decide, by decide, by decide⟩
  intro v h
  exact ⟨by simp [format_duration, h], by simp [format_lag, h]⟩

/-- C6 witness: the recovery clause instantiated at the non-numeric string
"abc". -/
theorem numeric_field_recovery_amended_witness :
    format_duration (Value.vstr ("abc")) = "unknown duration" ∧
    format_lag (Value.vstr ("abc")) = "unknown lag" :=
  numeric_field_recovery_amended.1 (Value.vstr ("abc")) (by decide)

/-- C7: on a table set whose TASK collection is empty, both context builders
hit the unguarded division by the activity count and raise (modelled
`none`): ZeroDivisionError in the average-float and completion-percentage
computations, so the claimed guarded fallback does not exist in the code. -/
theorem empty_tasks_context_raises :
    generate_semantic_schedule_context
      { PROJECT := ⟨[[]]⟩, PROJWBS := ⟨[]⟩, TASK := ⟨[]⟩,
        TASKPRED := none, TASKRSRC := none } = none ∧
    generate_qa_context
      { PROJECT := ⟨[[]]⟩, PROJWBS := ⟨[]⟩, TASK := ⟨[]⟩,
        TASKPRED := none, TASKRSRC := none } = none := by
  decide

/-- Helper: the predecessor list of `analyze_relationships` is exactly the
input-ordered filter of relationships whose `task_id` equals the given id,
each resolved through `relEntryFor` at its `pred_task_id` endpoint. -/
lemma analyze_relationships_fst (id : Value) (lk : Lookup) (rels : List Record) :
    (analyze_relationships id rels lk).1 =
      (rels.filter (fun r => pyEq (getField r ("task_id") Value.vnone) id)).map
        (fun r => relEntryFor (getField r ("pred_task_id") Value.vnone) r lk) := by
  induction rels with
  | nil => rfl
  | cons r rest ih =>
      simp only [analyze_relationships, List.filter_cons]
      by_cases h1 : pyEq (getField r ("task_id") Value.vnone) id
      · simp [h1, ih]
      · simp [h1, ih]

/-- Helper: the successor list of `analyze_relationships` is exactly the
input-ordered filter of relationships whose `pred_task_id` equals the given
id, each resolved through `relEntryFor` at its `task_id` endpoint. -/
lemma analyze_relationships_snd (id : Value) (lk : Lookup) (rels : List Record) :
    (analyze_relationships id rels lk).2 =
      (rels.filter (fun r => pyEq (getField r ("pred_task_id") Value.vnone) id)).map
        (fun r => relEntryFor (getField r ("task_id") Value.vnone) r lk) := by
  induction rels with
  | nil => rfl
  | cons r rest ih =>
      simp only [analyze_relationships, List.filter_cons]
      by_cases h1 : pyEq (getField r ("pred_task_id") Value.vnone) id
      · simp [h1, ih]
      · simp [h1, ih]

/-- C2: `analyze_relationships` returns as predecessors exactly the
relationships whose `task_id` equals the given id, resolved at the
`pred_task_id` endpoint, and as successors exactly those whose
`pred_task_id` equals the given id, both preserving input order; an
unresolvable endpoint id yields name "Unknown Task" and empty code while the
relationship-type code and lag are carried raw; a self-referential
relationship contributes an entry to both lists. -/
theorem analyze_relationships_spec :
    (∀ (id : Value) (rels : List Record) (lk : Lookup),
      (analyze_relationships id rels lk).1 =
        (rels.filter (fun r => pyEq (getField r ("task_id") Value.vnone) id)).map
          (fun r => relEntryFor (getField r ("pred_task_id") Value.vnone) r lk) ∧
      (analyze_relationships id rels lk).2 =
        (rels.filter (fun r => pyEq (getField r ("pred_task_id") Value.vnone) id)).map
          (fun r => relEntryFor (getField r ("task_id") Value.vnone) r lk)) ∧
    (∀ (eid : Value) (r : Record) (lk : Lookup), lookupGet lk eid = none →
      (relEntryFor eid r lk).name = Value.vstr ("Unknown Task") ∧
      (relEntryFor eid r lk).code = Value.vstr ("") ∧
      (relEntryFor eid r lk).type = getField r ("pred_type") (Value.vstr ("")) ∧
      (relEntryFor eid r lk).lag = getField r ("lag_hr_cnt") (Value.vnum (Frac.ofInt 0))) ∧
    (∀ (id : Value) (rels : List Record) (lk : Lookup) (r : Record), r ∈ rels →
      pyEq (getField r ("task_id") Value.vnone) id = true →
      pyEq (getField r ("pred_task_id") Value.vnone) id = true →
      relEntryFor (getField r ("pred_task_id") Value.vnone) r lk ∈
        (analyze_relationships id rels lk).1 ∧
      relEntryFor (getField r ("task_id") Value.vnone) r lk ∈
        (analyze_relationships id rels lk).2) := by
  refine ⟨fun id rels lk => ⟨analyze_relationships_fst id lk rels,
    analyze_relationships_snd id lk rels⟩, ?_, ?_⟩
  · intro eid r lk h
    unfold relEntryFor
    rw [h]
    exact ⟨rfl, rfl, rfl, rfl⟩
  · intro id rels lk r hr hp hs
    constructor
    · rw [analyze_relationships_fst id lk rels]
      exact List.mem_map_of_mem _ (List.mem_filter.mpr ⟨hr, hp⟩)
    · rw [analyze_relationships_snd id lk rels]
      exact List.mem_map_of_mem _ (List.mem_filter.mpr ⟨hr, hs⟩)

/-- A concrete self-referential relationship record used to instantiate the
relationship-indexer theorem. -/
def selfRel : Record :=
  [(("task_id" : String), Value.vstr ("A")),
   (("pred_task_id" : String), Value.vstr ("A")),
   (("pred_type" : String), Value.vstr ("PR_FS")),
   (("lag_hr_cnt" : String), Value.vnum (Frac.ofInt 0))]

/-- C2 witness: on a single self-referential relationship with an empty
lookup, the resolved entry appears in both lists and carries the
"Unknown Task" defaults. -/
theorem analyze_relationships_spec_witness :
    (relEntryFor (getField selfRel ("pred_task_id") Value.vnone) selfRel [] ∈
      (analyze_relationships (Value.vstr ("A")) [selfRel] []).1 ∧
     relEntryFor (getField selfRel ("task_id") Value.vnone) selfRel [] ∈
      (analyze_relationships (Value.vstr ("A")) [selfRel] []).2) ∧
    (relEntryFor (Value.vstr ("A")) selfRel []).name = Value.vstr ("Unknown Task") ∧
    (relEntryFor (Value.vstr ("A")) selfRel []).code = Value.vstr ("") :=
  ⟨analyze_relationships_spec.2.2 (Value.vstr ("A")) [selfRel] [] selfRel
     (by decide) (by decide) (by decide),
   (analyze_relationships_spec.2.1 (Value.vstr ("A")) selfRel [] (by decide)).1,
   (analyze_relationships_spec.2.1 (Value.vstr ("A")) selfRel [] (by decide)).2.1⟩

/-- Declarative description of the negative-lag rule: one warning, in input
order, per predecessor whose lag converts to a strictly negative number. -/
def negLagWarnings (preds : List RelEntry) : List String :=
  preds.filterMap (fun p =>
    if ((pyFloat p.lag).getD (Frac.ofInt 0)).toRat < 0 then
      some ("Warning: Negative lag on relationship with " ++ pyStr p.name)
    else none)

/-- Declarative description of the Start-to-Finish rule: one summary note
carrying the count of PR_SF predecessors when at least one exists. -/
def sfNote (preds : List RelEntry) : List String :=
  if (preds.filter (fun p => pyEq p.type (Value.vstr ("PR_SF")))).isEmpty then []
  else ["Note: Activity has " ++
    natLit (preds.filter (fun p => pyEq p.type (Value.vstr ("PR_SF")))).length ++
    " Start-to-Finish relationship(s), which are unusual"]

/-- Declarative description of the no-predecessors rule. -/
def noPredWarning (preds : List RelEntry) (total_float : Value) : List String :=
  if preds.isEmpty ∧ 0 < ((pyFloat total_float).getD (Frac.ofInt 0)).toRat then
    ["Warning: Activity has no predecessors but has positive float"]
  else []

/-- Declarative description of the no-successors rule. -/
def noSuccWarning (succs : List RelEntry) (total_float : Value) : List String :=
  if succs.isEmpty ∧ 0 < ((pyFloat total_float).getD (Frac.ofInt 0)).toRat then
    ["Warning: Activity has no successors but has positive float"]
  else []

/-- Helper: a successful run of the negative-lag loop appends exactly the
declarative negative-lag warnings to its accumulator. -/
lemma foldlM_negLagStep (preds : List RelEntry) :
    ∀ (acc out : List String), preds.foldlM negLagStep acc = some out →
      out = acc ++ negLagWarnings preds := by
  induction preds with
  | nil =>
      intro acc out h
      simp only [List.foldlM_nil, Option.pure_def, Option.some.injEq] at h
      simp [negLagWarnings, ← h]
  | cons p ps ih =>
      intro acc out h
      rw [List.foldlM_cons] at h
      cases hl : pyFloat p.lag with
      | none => simp [negLagStep, hl] at h
      | some q =>
          have hcond : (((pyFloat p.lag).getD (Frac.ofInt 0)).toRat < 0) ↔
              (q.blt (Frac.ofInt 0) = true) := by
            rw [hl, Option.getD_some, Frac.blt_iff, Frac.toRat_ofInt]
            norm_num
          by_cases hq : q.blt (Frac.ofInt 0) = true
          · have hstep : negLagStep acc p = some (acc ++
                ["Warning: Negative lag on relationship with " ++ pyStr p.name]) := by
              simp [negLagStep, hl, hq]
            rw [hstep] at h
            simp only [Option.bind_eq_bind, Option.some_bind] at h
            have hrec := ih _ _ h
            rw [hrec]
            simp [negLagWarnings, List.filterMap_cons, hcond.mpr hq]
          · have hstep : negLagStep acc p = some acc := by
              simp [negLagStep, hl, hq]
            rw [hstep] at h
            simp only [Option.bind_eq_bind, Option.some_bind] at h
            have hrec := ih _ _ h
            rw [hrec]
            have hnot : ¬ ((pyFloat p.lag).getD (Frac.ofInt 0)).toRat < 0 := by
              intro hcon
              exact hq (hcond.mp hcon)
            simp [negLagWarnings, List.filterMap_cons, hnot]

/-- C3: a successful run of `generate_relationship_warnings` emits exactly,
in this fixed rule order: one warning per predecessor with negative lag (not
deduplicated), then the single Start-to-Finish summary note when at least one
PR_SF predecessor exists, then the no-predecessors-but-positive-float
warning, then the no-successors-but-positive-float warning; the rules are
independent and every applicable warning is emitted. -/
theorem generate_relationship_warnings_spec :
    ∀ (predecessors successors : List RelEntry) (total_float : Value) (ws : List String),
      generate_relationship_warnings predecessors successors total_float = some ws →
      ws = negLagWarnings predecessors ++ sfNote predecessors ++
        noPredWarning predecessors total_float ++ noSuccWarning successors total_float := by
  intro ps ss tf ws h
  unfold generate_relationship_warnings at h
  cases hf : ps.foldlM negLagStep ([] : List String) with
  | none => rw [hf] at h; simp at h
  | some w1 =>
      have hw1 : w1 = negLagWarnings ps := by
        simpa using foldlM_negLagStep ps [] w1 hf
      rw [hf] at h
      simp only [Option.bind_eq_bind, Option.some_bind] at h
      cases hp : ps.isEmpty with
      | false =>
          have hnp : noPredWarning ps tf = [] := by
            simp [noPredWarning, hp]
          cases hs : ss.isEmpty with
          | false =>
              have hns : noSuccWarning ss tf = [] := by
                simp [noSuccWarning, hs]
              rw [hp, hs] at h
              simp only [Bool.false_eq_true, if_false, Option.pure_def, Option.bind_eq_bind, Option.some_bind,
                Option.some.injEq] at h
              rw [← h, hw1, hnp, hns, sfNote]
              simp
          | true =>
              rw [hp, hs] at h
              simp only [Bool.false_eq_true, if_false, if_true, Option.pure_def,
                Option.bind_eq_bind, Option.some_bind] at h
              cases hft : pyFloat tf with
              | none => rw [hft] at h; simp at h
              | some q =>
                  rw [hft] at h
                  simp only [Option.bind_eq_bind, Option.some_bind] at h
                  have hcond : (0 < ((pyFloat tf).getD (Frac.ofInt 0)).toRat) ↔
                      ((Frac.ofInt 0).blt q = true) := by
                    rw [hft, Option.getD_some, Frac.blt_iff, Frac.toRat_ofInt]
                    norm_num
                  by_cases hq : (Frac.ofInt 0).blt q = true
                  · have hns : noSuccWarning ss tf =
                        ["Warning: Activity has no successors but has positive float"] := by
                      simp [noSuccWarning, hs, hcond.mpr hq]
                    rw [hq] at h
                    simp only [if_true, Option.some.injEq] at h
                    rw [← h, hw1, hnp, hns, sfNote]
                    simp
                  · have hns : noSuccWarning ss tf = [] := by
                      have : ¬ (0 < ((pyFloat tf).getD (Frac.ofInt 0)).toRat) := fun hc =>
                        hq (hcond.mp hc)
                      simp [noSuccWarning, this]
                    rw [Bool.eq_false_iff.mpr hq] at h
                    simp only [Bool.false_eq_true, if_false, Option.some.injEq] at h
                    rw [← h, hw1, hnp, hns, sfNote]
                    simp
      | true =>
          rw [hp] at h
          simp only [if_true, Option.pure_def, Option.bind_eq_bind, Option.some_bind] at h
          cases hft : pyFloat tf with
          | none => rw [hft] at h; simp at h
          | some q =>
              rw [hft] at h
              simp only [Option.bind_eq_bind, Option.some_bind] at h
              have hpempty : ps = [] := List.isEmpty_iff.mp hp
              have hcond : (0 < ((pyFloat tf).getD (Frac.ofInt 0)).toRat) ↔
                  ((Frac.ofInt 0).blt q = true) := by
                rw [hft, Option.getD_some, Frac.blt_iff, Frac.toRat_ofInt]
                norm_num
              have hsempty : ss.isEmpty = true → ss = [] := List.isEmpty_iff.mp
              by_cases hq : (Frac.ofInt 0).blt q = true
              · have hnp : noPredWarning ps tf =
                    ["Warning: Activity has no predecessors but has positive float"] := by
                  simp [noPredWarning, hp, hcond.mpr hq]
                rw [hq] at h
                simp only [if_true] at h
                cases hs : ss.isEmpty with
                | false =>
                    have hns : noSuccWarning ss tf = [] := by
                      simp [noSuccWarning, hs]
                    rw [hs] at h
                    simp only [Bool.false_eq_true, if_false, Option.pure_def,
                      Option.bind_eq_bind, Option.some_bind, Option.some.injEq] at h
                    rw [← h, hw1, hnp, hns, sfNote]
                    simp
                | true =>
                    have hns : noSuccWarning ss tf =
                        ["Warning: Activity has no successors but has positive float"] := by
                      simp [noSuccWarning, hs, hcond.mpr hq]
                    rw [hs] at h
                    simp only [if_true, Option.pure_def, Option.bind_eq_bind,
                      Option.some_bind, Option.some.injEq] at h
                    rw [← h, hw1, hnp, hns, sfNote]
              · have hnotpos : ¬ (0 < ((pyFloat tf).getD (Frac.ofInt 0)).toRat) := fun hc =>
                  hq (hcond.mp hc)
                have hnp : noPredWarning ps tf = [] := by
                  simp [noPredWarning, hnotpos]
                rw [Bool.eq_false_iff.mpr hq] at h
                simp only [Bool.false_eq_true, if_false] at h
                cases hs : ss.isEmpty with
                | false =>
                    have hns : noSuccWarning ss tf = [] := by
                      simp [noSuccWarning, hs]
                    rw [hs] at h
                    simp only [Bool.false_eq_true, if_false, Option.pure_def,
                      Option.bind_eq_bind, Option.some_bind, Option.some.injEq] at h
                    rw [← h, hw1, hnp, hns, sfNote]
                    simp
                | true =>
                    have hns : noSuccWarning ss tf = [] := by
                      simp [noSuccWarning, hnotpos]
                    rw [hs] at h
                    simp only [if_true, Option.pure_def, Option.bind_eq_bind,
                      Option.some_bind, Option.some.injEq] at h
                    rw [← h, hw1, hnp, hns, sfNote]
                    simp

/-- A concrete predecessor entry with lag -8 hours. -/
def predNeg8 : RelEntry :=
  { name := Value.vstr ("B"), code := Value.vstr ("B1"),
    type := Value.vstr ("PR_FS"), lag := Value.vnum (Frac.ofInt (-8)) }

/-- C3 witness: one predecessor at lag -8 with positive float and no
successors; the emitted list matches the rule decomposition and contains both
the negative-lag warning and the no-successors warning. -/
theorem generate_relationship_warnings_spec_witness :
    generate_relationship_warnings [predNeg8] [] (Value.vnum (Frac.ofInt 40)) =
      some (negLagWarnings [predNeg8] ++ sfNote [predNeg8] ++
        noPredWarning [predNeg8] (Value.vnum (Frac.ofInt 40)) ++
        noSuccWarning [] (Value.vnum (Frac.ofInt 40))) ∧
    "Warning: Negative lag on relationship with B" ∈
      (generate_relationship_warnings [predNeg8] [] (Value.vnum (Frac.ofInt 40))).getD [] ∧
    "Warning: Activity has no successors but has positive float" ∈
      (generate_relationship_warnings [predNeg8] [] (Value.vnum (Frac.ofInt 40))).getD [] := by
  have h : generate_relationship_warnings [predNeg8] [] (Value.vnum (Frac.ofInt 40)) =
      some ["Warning: Negative lag on relationship with B",
            "Warning: Activity has no successors but has positive float"] := by decide
  refine ⟨?_, by decide, by decide⟩
  rw [h, ← generate_relationship_warnings_spec [predNeg8] [] (Value.vnum (Frac.ofInt 40)) _ h]

/-- The criticality predicate as the spec states it: the total float field,
parsed as a number (with the sentinel default 999999 when absent), is at most
zero; an unparseable field yields false (though the builders raise there). -/
def criticalP (t : Record) : Bool :=
  ((pyFloat (getField t ("total_float_hr_cnt") (Value.vnum (Frac.ofInt 999999)))).map
    (fun q => q.ble (Frac.ofInt 0))).getD false

/-- Helper: a successful run of `filterFloat` returns exactly the input
filter by the converted-field predicate. -/
lemma filterFloat_spec (p : Frac → Bool) (key : String) (d : Value) :
    ∀ (ts l : List Record), filterFloat p key d ts = some l →
      l = ts.filter (fun t => ((pyFloat (getField t key d)).map p).getD false) := by
  intro ts
  induction ts with
  | nil =>
      intro l h
      simp only [filterFloat, Option.some.injEq] at h
      simp [← h]
  | cons t ts ih =>
      intro l h
      unfold filterFloat at h
      cases hq : pyFloat (getField t key d) with
      | none => rw [hq] at h; simp at h
      | some q =>
          rw [hq] at h
          simp only [Option.bind_eq_bind, Option.some_bind] at h
          cases hrest : filterFloat p key d ts with
          | none => rw [hrest] at h; simp at h
          | some rest =>
              rw [hrest] at h
              simp only [Option.bind_eq_bind, Option.some_bind] at h
              by_cases hp : p q = true
              · simp only [hp, if_true, Option.pure_def, Option.some.injEq] at h
                rw [← h]
                simp [List.filter_cons, hq, hp, ih rest hrest]
              · simp only [hp, Bool.false_eq_true, if_false, Option.pure_def,
                  Option.some.injEq] at h
                rw [← h]
                have hpf : p q = false := Bool.eq_false_iff.mpr hp
                simp [List.filter_cons, hq, hpf, ih rest hrest]

/-- Helper: a successful semantic-context build determines a successful
critical-task computation whose length is the reported risk-list length and
whose count is embedded in the critical-path description. -/
lemma semantic_critical_shape (T : Tables) (sc : SemanticContext)
    (h : generate_semantic_schedule_context T = some sc) :
    ∃ crit : List Record, criticalTasks T.TASK.entries = some crit ∧
      sc.timing_analysis.schedule_risks.length = crit.length ∧
      sc.timing_analysis.critical_path_description =
        "The schedule contains " ++ natLit crit.length ++ " critical activities" := by
  unfold generate_semantic_schedule_context at h
  cases hp : T.PROJECT.entries.head? with
  | none => rw [hp] at h; simp [Option.bind_eq_bind] at h
  | some proj =>
      rw [hp] at h
      simp only [Option.bind_eq_bind, Option.some_bind] at h
      cases hc : criticalTasks T.TASK.entries with
      | none => rw [hc] at h; simp at h
      | some crit =>
          rw [hc] at h
          simp only [Option.bind_eq_bind, Option.some_bind] at h
          cases hsum : sumFloats T.TASK.entries with
          | none => rw [hsum] at h; simp at h
          | some fs =>
              rw [hsum] at h
              simp only [Option.bind_eq_bind, Option.some_bind] at h
              by_cases hlen : T.TASK.entries.length = 0
              · rw [if_pos hlen] at h; simp at h
              · rw [if_neg hlen] at h
                simp only [Option.pure_def, Option.some.injEq] at h
                refine ⟨crit, rfl, ?_, ?_⟩
                · rw [← h]
                  simp
                · rw [← h]

/-- Helper: a successful Q&A-context build determines a successful
critical-task computation whose length is the reported critical-name-list
length and whose count is embedded in the driving-completion answer. -/
lemma qa_critical_shape (T : Tables) (qc : QaContext)
    (h : generate_qa_context T = some qc) :
    ∃ crit : List Record, criticalTasks T.TASK.entries = some crit ∧
      qc.timing_questions.which_activities_are_critical.length = crit.length ∧
      qc.timing_questions.what_is_driving_completion =
        "There are " ++ natLit crit.length ++
          " critical activities driving project completion" := by
  unfold generate_qa_context at h
  cases hp : T.PROJECT.entries.head? with
  | none => rw [hp] at h; simp [Option.bind_eq_bind] at h
  | some proj =>
      rw [hp] at h
      simp only [Option.bind_eq_bind, Option.some_bind] at h
      cases hc : criticalTasks T.TASK.entries with
      | none => rw [hc] at h; simp at h
      | some crit =>
          rw [hc] at h
          simp only [Option.bind_eq_bind, Option.some_bind] at h
          by_cases hlen : T.TASK.entries.length = 0
          · rw [if_pos hlen] at h; simp at h
          · rw [if_neg hlen] at h
            simp only [Option.pure_def, Option.some.injEq] at h
            refine ⟨crit, rfl, ?_, ?_⟩
            · rw [← h]
              simp
            · rw [← h]

/-- Helper: the builders' criticality test coincides pointwise with the
spec-side `criticalP`. -/
lemma critical_pred_eq (t : Record) :
    ((pyFloat (getField t ("total_float_hr_cnt") (Value.vnum (Frac.ofInt 999999)))).map
      (fun q => q.ble (Frac.ofInt 0))).getD false = criticalP t := rfl

/-- C8: both context builders count an activity critical exactly when its
total float field, parsed with the sentinel default 999999 for an absent
field, is at most zero; an activity with no float field is never counted
critical, and the two builders report the same critical-activity count for
the same tables, both in their lists and in their description strings. -/
theorem critical_count_consistency :
    ∀ (T : Tables) (sc : SemanticContext) (qc : QaContext),
      generate_semantic_schedule_context T = some sc →
      generate_qa_context T = some qc →
      (sc.timing_analysis.schedule_risks.length =
          (T.TASK.entries.filter criticalP).length ∧
        qc.timing_questions.which_activities_are_critical.length =
          (T.TASK.entries.filter criticalP).length ∧
        sc.timing_analysis.schedule_risks.length =
          qc.timing_questions.which_activities_are_critical.length ∧
        sc.timing_analysis.critical_path_description =
          "The schedule contains " ++ natLit (T.TASK.entries.filter criticalP).length ++
            " critical activities" ∧
        qc.timing_questions.what_is_driving_completion =
          "There are " ++ natLit (T.TASK.entries.filter criticalP).length ++
            " critical activities driving project completion") ∧
      (∀ (t : Record) (q : Frac),
        pyFloat (getField t ("total_float_hr_cnt") (Value.vnum (Frac.ofInt 999999))) = some q →
        (criticalP t = true ↔ q.toRat ≤ 0)) ∧
      (∀ t : Record,
        t.find? (fun p => p.1 = ("total_float_hr_cnt" : String)) = none →
        criticalP t = false) := by
  intro T sc qc hsem hqa
  obtain ⟨crit, hc, hlen, hdesc⟩ := semantic_critical_shape T sc hsem
  obtain ⟨crit2, hc2, hlen2, hdesc2⟩ := qa_critical_shape T qc hqa
  have hcc : crit2 = crit := by
    rw [hc] at hc2
    exact (Option.some.injEq _ _ ▸ hc2).symm
  have hfilter : crit = T.TASK.entries.filter criticalP := by
    have := filterFloat_spec (fun q => q.ble (Frac.ofInt 0)) ("total_float_hr_cnt")
      (Value.vnum (Frac.ofInt 999999)) T.TASK.entries crit hc
    rw [this]
    exact List.filter_congr (fun t _ => critical_pred_eq t)
  refine ⟨⟨?_, ?_, ?_, ?_, ?_⟩, ?_, ?_⟩
  · rw [hlen, hfilter]
  · rw [hlen2, hcc, hfilter]
  · rw [hlen, hlen2, hcc]
  · rw [hdesc, hfilter]
  · rw [hdesc2, hcc, hfilter]
  · intro t q hq
    unfold criticalP
    rw [hq]
    show q.ble (Frac.ofInt 0) = true ↔ q.toRat ≤ 0
    rw [Frac.ble_iff, Frac.toRat_ofInt]
    norm_num
  · intro t hfind
    have hg : getField t ("total_float_hr_cnt") (Value.vnum (Frac.ofInt 999999)) =
        Value.vnum (Frac.ofInt 999999) := by
      unfold getField
      rw [hfind]
    unfold criticalP
    rw [hg]
    decide

/-- Concrete tables with one critical activity (float 0) and one activity
with no float field, used to instantiate the criticality theorem. -/
def critTables : Tables :=
  { PROJECT := ⟨[[]]⟩, PROJWBS := ⟨[]⟩,
    TASK := ⟨[[(("total_float_hr_cnt" : String), Value.vnum (Frac.ofInt 0)),
               (("task_name" : String), Value.vstr ("M"))],
              [(("task_name" : String), Value.vstr ("N"))]]⟩,
    TASKPRED := none, TASKRSRC := none }

set_option maxRecDepth 100000 in
/-- C8 witness: on the concrete tables both builders count exactly one
critical activity, and the activity with no float field is not critical. -/
theorem critical_count_consistency_witness :
    (generate_semantic_schedule_context critTables).map
      (fun sc => sc.timing_analysis.schedule_risks.length) = some 1 ∧
    (generate_qa_context critTables).map
      (fun qc => qc.timing_questions.which_activities_are_critical.length) = some 1 ∧
    criticalP [(("task_name" : String), Value.vstr ("N"))] = false := by
  have hflen : (critTables.TASK.entries.filter criticalP).length = 1 := by decide
  cases hsc : generate_semantic_schedule_context critTables with
  | none => exact absurd hsc (by decide)
  | some sc =>
      cases hqc : generate_qa_context critTables with
      | none => exact absurd hqc (by decide)
      | some qc =>
          obtain ⟨⟨h1, h2, _, _, _⟩, _, habs⟩ :=
            critical_count_consistency critTables sc qc hsc hqc
          refine ⟨?_, ?_, habs _ (by decide)⟩
          · show some sc.timing_analysis.schedule_risks.length = some 1
            rw [h1, hflen]
          · show some qc.timing_questions.which_activities_are_critical.length = some 1
            rw [h2, hflen]

/-- The predecessor-count dict built by the first analyzer loop, keyed by
each relationship's `task_id` (app.py line 148). -/
def pred_count (rels : List Record) : CountMap :=
  rels.foldl (fun pc r => cmBump pc (getField r ("task_id") Value.vnone)) []

/-- The successor-count dict built by the first analyzer loop, keyed by each
relationship's `pred_task_id` (app.py line 149). -/
def succ_count (rels : List Record) : CountMap :=
  rels.foldl (fun sc r => cmBump sc (getField r ("pred_task_id") Value.vnone)) []

/-- Classification predicate: the activity's id has no entry in the counting
dict. -/
def noCountP (cm : CountMap) (t : Record) : Bool :=
  ¬ cmMem cm (getField t ("task_id") Value.vnone)

/-- Classification predicate: the activity's id has exactly one counted
relationship in the counting dict. -/
def singleCountP (cm : CountMap) (t : Record) : Bool :=
  cmMem cm (getField t ("task_id") Value.vnone) ∧
    cmGet cm (getField t ("task_id") Value.vnone) = 1

/-- Classification predicate: the activity's id has more than one counted
relationship in the counting dict. -/
def multiCountP (cm : CountMap) (t : Record) : Bool :=
  cmMem cm (getField t ("task_id") Value.vnone) ∧
    ¬ cmGet cm (getField t ("task_id") Value.vnone) = 1

/-- High-float test of the analyzer: converted total float strictly greater
than 80 hours. -/
def highFloatP (t : Record) : Bool :=
  (Frac.ofInt 80).blt
    ((pyFloat (getField t ("total_float_hr_cnt") (Value.vnum (Frac.ofInt 0)))).getD
      (Frac.ofInt 0))

/-- Negative-float test of the analyzer: converted total float strictly
negative. -/
def negFloatP (t : Record) : Bool :=
  ((pyFloat (getField t ("total_float_hr_cnt") (Value.vnum (Frac.ofInt 0)))).getD
    (Frac.ofInt 0)).blt (Frac.ofInt 0)

/-- Closed form of the predecessor-classification if-chain of the task
loop. -/
lemma predChain_eq (pc : CountMap) (tid : Value) (m : Metrics) :
    (if ¬ cmMem pc tid then { m with activities_no_pred := m.activities_no_pred + 1 }
     else if cmGet pc tid = 1 then
       { m with activities_single_pred := m.activities_single_pred + 1 }
     else { m with activities_multiple_pred := m.activities_multiple_pred + 1 }) =
    { m with
      activities_no_pred := m.activities_no_pred + (if ¬ cmMem pc tid then 1 else 0),
      activities_single_pred := m.activities_single_pred +
        (if cmMem pc tid ∧ cmGet pc tid = 1 then 1 else 0),
      activities_multiple_pred := m.activities_multiple_pred +
        (if cmMem pc tid ∧ ¬ cmGet pc tid = 1 then 1 else 0) } := by
  by_cases h1 : cmMem pc tid = true
  · by_cases h2 : cmGet pc tid = 1
    · simp [h1, h2]
    · simp [h1, h2]
  · simp [h1]

/-- Closed form of the successor-classification if-chain of the task loop. -/
lemma succChain_eq (sc : CountMap) (tid : Value) (m : Metrics) :
    (if ¬ cmMem sc tid then { m with activities_no_succ := m.activities_no_succ + 1 }
     else if cmGet sc tid = 1 then
       { m with activities_single_succ := m.activities_single_succ + 1 }
     else { m with activities_multiple_succ := m.activities_multiple_succ + 1 }) =
    { m with
      activities_no_succ := m.activities_no_succ + (if ¬ cmMem sc tid then 1 else 0),
      activities_single_succ := m.activities_single_succ +
        (if cmMem sc tid ∧ cmGet sc tid = 1 then 1 else 0),
      activities_multiple_succ := m.activities_multiple_succ +
        (if cmMem sc tid ∧ ¬ cmGet sc tid = 1 then 1 else 0) } := by
  by_cases h1 : cmMem sc tid = true
  · by_cases h2 : cmGet sc tid = 1
    · simp [h1, h2]
    · simp [h1, h2]
  · simp [h1]

/-- Per-step shape of the task loop: a successful step adds exactly one to
the matching classification counter on each axis and to each float counter
whose test holds, and touches nothing else. -/
lemma taskStep_shape (pc sc : CountMap) (m : Metrics) (t : Record) (m2 : Metrics)
    (h : taskStep pc sc m t = some m2) :
    ∃ q, pyFloat (getField t ("total_float_hr_cnt") (Value.vnum (Frac.ofInt 0))) = some q ∧
      m2 = { m with
        activities_no_pred := m.activities_no_pred + (if noCountP pc t then 1 else 0),
        activities_single_pred := m.activities_single_pred +
          (if singleCountP pc t then 1 else 0),
        activities_multiple_pred := m.activities_multiple_pred +
          (if multiCountP pc t then 1 else 0),
        activities_no_succ := m.activities_no_succ + (if noCountP sc t then 1 else 0),
        activities_single_succ := m.activities_single_succ +
          (if singleCountP sc t then 1 else 0),
        activities_multiple_succ := m.activities_multiple_succ +
          (if multiCountP sc t then 1 else 0),
        high_float_activities := m.high_float_activities + (if highFloatP t then 1 else 0),
        negative_float_activities := m.negative_float_activities +
          (if negFloatP t then 1 else 0) } := by
  unfold taskStep at h
  cases hq : pyFloat (getField t ("total_float_hr_cnt") (Value.vnum (Frac.ofInt 0))) with
  | none => rw [hq] at h; simp at h
  | some q =>
      rw [hq] at h
      simp only [Option.bind_eq_bind, Option.some_bind, Option.pure_def,
        Option.some.injEq] at h
      refine ⟨q, rfl, ?_⟩
      rw [← h, predChain_eq, succChain_eq]
      have hhf : highFloatP t = (Frac.ofInt 80).blt q := by
        simp [highFloatP, hq]
      have hnf : negFloatP t = q.blt (Frac.ofInt 0) := by
        simp [negFloatP, hq]
      by_cases hb80 : (Frac.ofInt 80).blt q = true
      · by_cases hb0 : q.blt (Frac.ofInt 0) = true
        · simp [hb80, hb0, hhf, hnf, noCountP, singleCountP, multiCountP]
        · simp [hb80, hb0, hhf, hnf, noCountP, singleCountP, multiCountP]
      · by_cases hb0 : q.blt (Frac.ofInt 0) = true
        · simp [hb80, hb0, hhf, hnf, noCountP, singleCountP, multiCountP]
        · simp [hb80, hb0, hhf, hnf, noCountP, singleCountP, multiCountP]

/-- Per-step shape of the relationship loop: a successful step bumps the two
counting dicts and leaves every counter of the task loop untouched. -/
lemma relStep_shape (st : Metrics × CountMap × CountMap) (r : Record)
    (out : Metrics × CountMap × CountMap) (h : relStep st r = some out) :
    out.2.1 = cmBump st.2.1 (getField r ("task_id") Value.vnone) ∧
    out.2.2 = cmBump st.2.2 (getField r ("pred_task_id") Value.vnone) ∧
    out.1.total_activities = st.1.total_activities ∧
    out.1.activities_no_pred = st.1.activities_no_pred ∧
    out.1.activities_single_pred = st.1.activities_single_pred ∧
    out.1.activities_multiple_pred = st.1.activities_multiple_pred ∧
    out.1.activities_no_succ = st.1.activities_no_succ ∧
    out.1.activities_single_succ = st.1.activities_single_succ ∧
    out.1.activities_multiple_succ = st.1.activities_multiple_succ ∧
    out.1.high_float_activities = st.1.high_float_activities ∧
    out.1.negative_float_activities = st.1.negative_float_activities := by
  obtain ⟨m, pc, sc⟩ := st
  unfold relStep at h
  cases hl : pyFloat (getField r ("lag_hr_cnt") (Value.vnum (Frac.ofInt 0))) with
  | none => rw [hl] at h; simp at h
  | some q =>
      rw [hl] at h
      simp only [Option.bind_eq_bind, Option.some_bind, Option.pure_def,
        Option.some.injEq] at h
      rw [← h]
      refine ⟨rfl, rfl, ?_, ?_, ?_, ?_, ?_, ?_, ?_, ?_, ?_⟩ <;>
        (dsimp only; split_ifs <;> rfl)

/-- Aggregate shape of the relationship loop: a successful run builds the two
counting dicts of the source and preserves the task-loop counters of its
initial metrics. -/
lemma relLoop_shape (rels : List Record) :
    ∀ (st out : Metrics × CountMap × CountMap), rels.foldlM relStep st = some out →
      out.2.1 = rels.foldl (fun pc r => cmBump pc (getField r ("task_id") Value.vnone)) st.2.1 ∧
      out.2.2 = rels.foldl (fun sc r => cmBump sc (getField r ("pred_task_id") Value.vnone)) st.2.2 ∧
      out.1.total_activities = st.1.total_activities ∧
      out.1.activities_no_pred = st.1.activities_no_pred ∧
      out.1.activities_single_pred = st.1.activities_single_pred ∧
      out.1.activities_multiple_pred = st.1.activities_multiple_pred ∧
      out.1.activities_no_succ = st.1.activities_no_succ ∧
      out.1.activities_single_succ = st.1.activities_single_succ ∧
      out.1.activities_multiple_succ = st.1.activities_multiple_succ ∧
      out.1.high_float_activities = st.1.high_float_activities ∧
      out.1.negative_float_activities = st.1.negative_float_activities := by
  induction rels with
  | nil =>
      intro st out h
      simp only [List.foldlM_nil, Option.pure_def, Option.some.injEq] at h
      rw [← h]
      exact ⟨rfl, rfl, rfl, rfl, rfl, rfl, rfl, rfl, rfl, rfl, rfl⟩
  | cons r rest ih =>
      intro st out h
      rw [List.foldlM_cons] at h
      cases hs : relStep st r with
      | none => rw [hs] at h; simp at h
      | some st2 =>
          rw [hs] at h
          simp only [Option.bind_eq_bind, Option.some_bind] at h
          obtain ⟨ha, hb, hc⟩ := relStep_shape st r st2 hs
          obtain ⟨ia, ib, ic⟩ := ih st2 out h
          refine ⟨?_, ?_, ?_⟩
          · rw [ia, ha, List.foldl_cons]
          · rw [ib, hb, List.foldl_cons]
          · exact ⟨ic.1.trans hc.1, ic.2.1.trans hc.2.1, ic.2.2.1.trans hc.2.2.1,
              ic.2.2.2.1.trans hc.2.2.2.1, ic.2.2.2.2.1.trans hc.2.2.2.2.1,
              ic.2.2.2.2.2.1.trans hc.2.2.2.2.2.1,
              ic.2.2.2.2.2.2.1.trans hc.2.2.2.2.2.2.1,
              ic.2.2.2.2.2.2.2.1.trans hc.2.2.2.2.2.2.2.1,
              ic.2.2.2.2.2.2.2.2.trans hc.2.2.2.2.2.2.2.2⟩

/-- Aggregate shape of the task loop: a successful run adds to each
classification counter exactly the number of activities satisfying the
corresponding predicate, and preserves the relationship counters. -/
lemma taskLoop_shape (pc sc : CountMap) (tasks : List Record) :
    ∀ (m0 m : Metrics), tasks.foldlM (taskStep pc sc) m0 = some m →
      m.total_activities = m0.total_activities ∧
      m.ss_relationships = m0.ss_relationships ∧
      m.ff_relationships = m0.ff_relationships ∧
      m.sf_relationships = m0.sf_relationships ∧
      m.relationships_with_lag = m0.relationships_with_lag ∧
      m.relationships_with_negative_lag = m0.relationships_with_negative_lag ∧
      m.activities_no_pred = m0.activities_no_pred + tasks.countP (noCountP pc) ∧
      m.activities_single_pred = m0.activities_single_pred + tasks.countP (singleCountP pc) ∧
      m.activities_multiple_pred = m0.activities_multiple_pred + tasks.countP (multiCountP pc) ∧
      m.activities_no_succ = m0.activities_no_succ + tasks.countP (noCountP sc) ∧
      m.activities_single_succ = m0.activities_single_succ + tasks.countP (singleCountP sc) ∧
      m.activities_multiple_succ = m0.activities_multiple_succ + tasks.countP (multiCountP sc) ∧
      m.high_float_activities = m0.high_float_activities + tasks.countP highFloatP ∧
      m.negative_float_activities = m0.negative_float_activities + tasks.countP negFloatP := by
  induction tasks with
  | nil =>
      intro m0 m h
      simp only [List.foldlM_nil, Option.pure_def, Option.some.injEq] at h
      subst h
      simp
  | cons t ts ih =>
      intro m0 m h
      rw [List.foldlM_cons] at h
      cases hs : taskStep pc sc m0 t with
      | none => rw [hs] at h; simp at h
      | some m1 =>
          rw [hs] at h
          simp only [Option.bind_eq_bind, Option.some_bind] at h
          obtain ⟨q, hq, hm1⟩ := taskStep_shape pc sc m0 t m1 hs
          obtain ⟨i1, i2, i3, i4, i5, i6, i7, i8, i9, i10, i11, i12, i13, i14⟩ := ih m1 m h
          subst hm1
          dsimp only at i1 i2 i3 i4 i5 i6 i7 i8 i9 i10 i11 i12 i13 i14
          simp only [List.countP_cons]
          refine ⟨?_, ?_, ?_, ?_, ?_, ?_, ?_, ?_, ?_, ?_, ?_, ?_, ?_, ?_⟩ <;> omega

/-- C1 counterexample: one activity with total float 100 and zero
relationships gives `high_float_activities = 1`, so "all other counts are 0"
fails for N activities with zero relationships. -/
theorem analyze_network_logic_highfloat_counterexample :
    (analyze_network_logic
        [[(("task_id" : String), Value.vstr ("X")),
          (("total_float_hr_cnt" : String), Value.vnum (Frac.ofInt 100))]] []).map
      (fun m => m.high_float_activities) ≠ some 0 := by
  decide

/-- C1 (amended): a successful run of `analyze_network_logic` classifies each
activity three ways by its predecessor count and symmetrically by successor
count, counts it high-float exactly when its total float is strictly greater
than 80 and negative-float exactly when strictly negative (two independent
tests that can never both hold); for N activities and zero relationships,
`activities_no_pred = activities_no_succ = N` and the single/multiple and
relationship counters are 0, while the two float counters still reflect the
activities' float values (0 whenever no activity has float above 80 or below
0). -/
theorem analyze_network_logic_classification :
    (∀ (tasks rels : List Record) (m : Metrics),
      analyze_network_logic tasks rels = some m →
      m.total_activities = tasks.length ∧
      m.activities_no_pred = tasks.countP (noCountP (pred_count rels)) ∧
      m.activities_single_pred = tasks.countP (singleCountP (pred_count rels)) ∧
      m.activities_multiple_pred = tasks.countP (multiCountP (pred_count rels)) ∧
      m.activities_no_succ = tasks.countP (noCountP (succ_count rels)) ∧
      m.activities_single_succ = tasks.countP (singleCountP (succ_count rels)) ∧
      m.activities_multiple_succ = tasks.countP (multiCountP (succ_count rels)) ∧
      m.high_float_activities = tasks.countP highFloatP ∧
      m.negative_float_activities = tasks.countP negFloatP) ∧
    (∀ t : Record, ¬ (highFloatP t = true ∧ negFloatP t = true)) ∧
    (∀ (t : Record) (q : Frac),
      pyFloat (getField t ("total_float_hr_cnt") (Value.vnum (Frac.ofInt 0))) = some q →
      ((highFloatP t = true ↔ 80 < q.toRat) ∧ (negFloatP t = true ↔ q.toRat < 0))) ∧
    (∀ (tasks : List Record) (m : Metrics),
      analyze_network_logic tasks [] = some m →
      m.activities_no_pred = tasks.length ∧ m.activities_no_succ = tasks.length ∧
      m.activities_single_pred = 0 ∧ m.activities_multiple_pred = 0 ∧
      m.activities_single_succ = 0 ∧ m.activities_multiple_succ = 0 ∧
      m.ss_relationships = 0 ∧ m.ff_relationships = 0 ∧ m.sf_relationships = 0 ∧
      m.relationships_with_lag = 0 ∧ m.relationships_with_negative_lag = 0 ∧
      m.high_float_activities = tasks.countP highFloatP ∧
      m.negative_float_activities = tasks.countP negFloatP) := by
  have hbridge : ∀ (t : Record) (q : Frac),
      pyFloat (getField t ("total_float_hr_cnt") (Value.vnum (Frac.ofInt 0))) = some q →
      ((highFloatP t = true ↔ 80 < q.toRat) ∧ (negFloatP t = true ↔ q.toRat < 0)) := by
    intro t q hq
    constructor
    · rw [show highFloatP t = (Frac.ofInt 80).blt q by simp [highFloatP, hq]]
      rw [Frac.blt_iff, Frac.toRat_ofInt]
      norm_num
    · rw [show negFloatP t = q.blt (Frac.ofInt 0) by simp [negFloatP, hq]]
      rw [Frac.blt_iff, Frac.toRat_ofInt]
      norm_num
  have main : ∀ (tasks rels : List Record) (m : Metrics),
      analyze_network_logic tasks rels = some m →
      m.total_activities = tasks.length ∧
      m.activities_no_pred = tasks.countP (noCountP (pred_count rels)) ∧
      m.activities_single_pred = tasks.countP (singleCountP (pred_count rels)) ∧
      m.activities_multiple_pred = tasks.countP (multiCountP (pred_count rels)) ∧
      m.activities_no_succ = tasks.countP (noCountP (succ_count rels)) ∧
      m.activities_single_succ = tasks.countP (singleCountP (succ_count rels)) ∧
      m.activities_multiple_succ = tasks.countP (multiCountP (succ_count rels)) ∧
      m.high_float_activities = tasks.countP highFloatP ∧
      m.negative_float_activities = tasks.countP negFloatP := by
    intro tasks rels m h
    unfold analyze_network_logic at h
    cases hrel : rels.foldlM relStep
        (initMetrics tasks.length, ([] : CountMap), ([] : CountMap)) with
    | none => rw [hrel] at h; simp at h
    | some st =>
        rw [hrel] at h
        simp only [Option.bind_eq_bind, Option.some_bind] at h
        obtain ⟨m1, pc, sc⟩ := st
        obtain ⟨ra, rb, rc1, rc2, rc3, rc4, rc5, rc6, rc7, rc8, rc9⟩ :=
          relLoop_shape rels _ _ hrel
        obtain ⟨l1, l2, l3, l4, l5, l6, l7, l8, l9, l10, l11, l12, l13, l14⟩ :=
          taskLoop_shape pc sc tasks m1 m h
        dsimp only at ra rb rc1 rc2 rc3 rc4 rc5 rc6 rc7 rc8 rc9
        have ra2 : pc = pred_count rels := ra
        have rb2 : sc = succ_count rels := rb
        rw [ra2] at l7 l8 l9
        rw [rb2] at l10 l11 l12
        simp only [initMetrics] at rc1 rc2 rc3 rc4 rc5 rc6 rc7 rc8 rc9
        refine ⟨?_, ?_, ?_, ?_, ?_, ?_, ?_, ?_, ?_⟩ <;> omega
  refine ⟨main, ?_, hbridge, ?_⟩
  · intro t hcon
    obtain ⟨h1, h2⟩ := hcon
    cases hq : pyFloat (getField t ("total_float_hr_cnt") (Value.vnum (Frac.ofInt 0))) with
    | none =>
        rw [show highFloatP t = (Frac.ofInt 80).blt (Frac.ofInt 0) by
          simp [highFloatP, hq]] at h1
        exact absurd h1 (by decide)
    | some q =>
        obtain ⟨hb1, hb2⟩ := hbridge t q hq
        have := hb1.mp h1
        have := hb2.mp h2
        linarith
  · intro tasks m h
    obtain ⟨h1, h2, h3, h4, h5, h6, h7, h8, h9⟩ := main tasks [] m h
    have hempty : pred_count ([] : List Record) = ([] : CountMap) := rfl
    have hempty2 : succ_count ([] : List Record) = ([] : CountMap) := rfl
    rw [hempty] at h2 h3 h4
    rw [hempty2] at h5 h6 h7
    have hno : tasks.countP (noCountP ([] : CountMap)) = tasks.length :=
      List.countP_eq_length.mpr (fun t _ => by simp [noCountP, cmMem])
    have hsingle : tasks.countP (singleCountP ([] : CountMap)) = 0 :=
      List.countP_eq_zero.mpr (fun t _ => by simp [singleCountP, cmMem])
    have hmulti : tasks.countP (multiCountP ([] : CountMap)) = 0 :=
      List.countP_eq_zero.mpr (fun t _ => by simp [multiCountP, cmMem])
    have hrelcounts : m.ss_relationships = 0 ∧ m.ff_relationships = 0 ∧
        m.sf_relationships = 0 ∧ m.relationships_with_lag = 0 ∧
        m.relationships_with_negative_lag = 0 := by
      have h' : tasks.foldlM (taskStep ([] : CountMap) ([] : CountMap))
          (initMetrics tasks.length) = some m := by
        simpa [analyze_network_logic, Option.bind_eq_bind] using h
      obtain ⟨t1, t2, t3, t4, t5, t6, t7, t8, t9, t10, t11, t12, t13, t14⟩ :=
        taskLoop_shape ([] : CountMap) ([] : CountMap) tasks (initMetrics tasks.length) m h'
      simp only [initMetrics] at t2 t3 t4 t5 t6
      exact ⟨t2, t3, t4, t5, t6⟩
    exact ⟨by rw [h2, hno], by rw [h5, hno], by rw [h3, hsingle], by rw [h4, hmulti],
      by rw [h6, hsingle], by rw [h7, hmulti], hrelcounts.1, hrelcounts.2.1,
      hrelcounts.2.2.1, hrelcounts.2.2.2.1, hrelcounts.2.2.2.2, h8, h9⟩

/-- Concrete single-activity task list with total float 100, used to
instantiate the classification theorem. -/
def c1Tasks : List Record :=
  [[(("task_id" : String), Value.vstr ("X")),
    (("total_float_hr_cnt" : String), Value.vnum (Frac.ofInt 100))]]

/-- The metrics record for one unlinked activity with float 100. -/
def c1Metrics : Metrics :=
  { initMetrics 1 with
    activities_no_pred := 1
    activities_no_succ := 1
    high_float_activities := 1 }

/-- C1 witness: the zero-relationships clause of the classification theorem
instantiated at one concrete activity with float 100. -/
theorem analyze_network_logic_classification_witness :
    analyze_network_logic c1Tasks [] = some c1Metrics ∧
    c1Metrics.activities_no_pred = c1Tasks.length ∧
    c1Metrics.activities_no_succ = c1Tasks.length ∧
    c1Metrics.high_float_activities = c1Tasks.countP highFloatP := by
  have h : analyze_network_logic c1Tasks [] = some c1Metrics := by decide
  obtain ⟨g1, g2, _, _, _, _, _, _, _, _, _, g12, _⟩ :=
    analyze_network_logic_classification.2.2.2 c1Tasks _ h
  exact ⟨h, g1, g2, g12⟩

/-- Digit characters are digits and parse back to their value. -/
lemma digitChar10_spec (d : Nat) (h : d < 10) :
    (digitChar10 d).isDigit = true ∧ digitVal (digitChar10 d) = d := by
  interval_cases d <;> exact ⟨rfl, rfl⟩

/-- Prepending context to a digit fold: `digitsVal` over an appended digit. -/
lemma digitsVal_append_digit (xs : List Char) (c : Char) :
    digitsVal (xs ++ [c]) = 10 * digitsVal xs + digitVal c := by
  simp [digitsVal, List.foldl_append]

/-- Correctness of the fueled digit rendering: with enough fuel the digits
are decimal digit characters evaluating back to the number, and the digit
string is empty only for zero. -/
lemma natCharsAux_spec : ∀ (fuel n : Nat), n ≤ fuel →
    (∀ c ∈ natCharsAux fuel n, c.isDigit = true) ∧
    digitsVal (natCharsAux fuel n) = n ∧
    (natCharsAux fuel n = [] ↔ n = 0) := by
  intro fuel
  induction fuel with
  | zero =>
      intro n hn
      have : n = 0 := Nat.le_zero.mp hn
      subst this
      exact ⟨by simp [natCharsAux], by simp [natCharsAux, digitsVal], by simp [natCharsAux]⟩
  | succ fuel ih =>
      intro n hn
      by_cases h0 : n = 0
      · subst h0
        exact ⟨by simp [natCharsAux], by simp [natCharsAux, digitsVal], by simp [natCharsAux]⟩
      · have hstep : natCharsAux (fuel + 1) n =
            natCharsAux fuel (n / 10) ++ [digitChar10 (n % 10)] := by
          simp [natCharsAux, h0]
        have hdiv : n / 10 ≤ fuel := by
          have : n / 10 < n := Nat.div_lt_self (Nat.pos_of_ne_zero h0) (by norm_num)
          omega
        obtain ⟨iha, ihb, ihc⟩ := ih (n / 10) hdiv
        have hmod : n % 10 < 10 := Nat.mod_lt _ (by norm_num)
        obtain ⟨hd1, hd2⟩ := digitChar10_spec (n % 10) hmod
        refine ⟨?_, ?_, ?_⟩
        · intro c hc
          rw [hstep] at hc
          rcases List.mem_append.mp hc with hc | hc
          · exact iha c hc
          · rw [List.mem_singleton.mp hc]
            exact hd1
        · rw [hstep, digitsVal_append_digit, ihb, hd2]
          omega
        · rw [hstep]
          simp [h0]

/-- The decimal rendering of a natural number is nonempty, all digits, and
parses back to the same number. -/
lemma natChars_spec (n : Nat) :
    natChars n ≠ [] ∧ (∀ c ∈ natChars n, c.isDigit = true) ∧
    parseNatDigits (natChars n) = some n := by
  by_cases h0 : n = 0
  · subst h0
    exact ⟨by decide, by decide, by decide⟩
  · obtain ⟨ha, hb, hc⟩ := natCharsAux_spec n n le_rfl
    have hne : natCharsAux n n ≠ [] := fun he => h0 (hc.mp he)
    have hnc : natChars n = natCharsAux n n := by simp [natChars, h0]
    refine ⟨by rw [hnc]; exact hne, by rw [hnc]; exact ha, ?_⟩
    rw [hnc]
    unfold parseNatDigits
    rw [if_neg (by simpa [List.isEmpty_iff] using hne)]
    rw [if_pos (List.all_eq_true.mpr ha), hb]

/-- Splitting a newline-free line yields the line alone. -/
lemma splitLines_single (l : List Char) (h : '\n' ∉ l) : splitLines l = [l] := by
  induction l with
  | nil => rfl
  | cons c cs ih =>
      have h1 : ¬ c = '\n' := fun e => h (by rw [e]; exact List.mem_cons_self _ _)
      have h2 : '\n' ∉ cs := fun hm => h (List.mem_cons_of_mem c hm)
      simp only [splitLines, if_neg h1, ih h2]

/-- Splitting a newline-free line followed by a newline peels it off. -/
lemma splitLines_append (l rest : List Char) (h : '\n' ∉ l) :
    splitLines (l ++ '\n' :: rest) = l :: splitLines rest := by
  induction l with
  | nil => simp [splitLines]
  | cons c cs ih =>
      have h1 : ¬ c = '\n' := fun e => h (by rw [e]; exact List.mem_cons_self _ _)
      have h2 : '\n' ∉ cs := fun hm => h (List.mem_cons_of_mem c hm)
      simp only [List.cons_append, splitLines, if_neg h1, List.append_eq, ih h2]

/-- `splitLines` inverts `joinLines` on nonempty lists of newline-free
lines. -/
lemma splitLines_joinLines : ∀ (L : List (List Char)), (∀ l ∈ L, '\n' ∉ l) → L ≠ [] →
    splitLines (joinLines L) = L := by
  intro L
  induction L with
  | nil => intro _ hne; exact absurd rfl hne
  | cons l ls ih =>
      intro hnl _
      cases ls with
      | nil =>
          exact splitLines_single l (hnl l (List.mem_cons_self _ _))
      | cons l2 ls2 =>
          have hjoin : joinLines (l :: l2 :: ls2) = l ++ '\n' :: joinLines (l2 :: ls2) := rfl
          rw [hjoin, splitLines_append l _ (hnl l (List.mem_cons_self _ _))]
          rw [ih (fun x hx => hnl x (List.mem_cons_of_mem l hx)) (by simp)]

/-- A label is an initial segment of itself followed by anything. -/
lemma takesLead_append_self (A ds : List Char) : takesLead A (A ++ ds) = true := by
  simp [takesLead, List.take_left]

/-- Static clash check between a sought label and another line's fixed
leading text: when it holds, the label cannot lead that line whatever digits
follow. -/
def noClash (A B : List Char) : Bool :=
  if A.length ≤ B.length then ¬ (B.take A.length = A)
  else ¬ (A.take B.length = B ∧ (A.drop B.length).all Char.isDigit = true)

/-- A label with a verified clash check never leads a line made of the other
label plus digits. -/
lemma lead_false_of_noClash (A B ds : List Char) (hds : ∀ c ∈ ds, c.isDigit = true)
    (h : noClash A B = true) : takesLead A (B ++ ds) = false := by
  simp only [takesLead, decide_eq_false_iff_not]
  intro hcon
  unfold noClash at h
  by_cases hlen : A.length ≤ B.length
  · rw [if_pos hlen] at h
    have h' : ¬ (B.take A.length = A) := by simpa using h
    apply h'
    rw [List.take_append_eq_append_take, Nat.sub_eq_zero_of_le hlen] at hcon
    simpa using hcon
  · rw [if_neg hlen] at h
    push_neg at hlen
    have h' : ¬ (A.take B.length = B ∧ (A.drop B.length).all Char.isDigit = true) :=
      of_decide_eq_true h
    apply h'
    constructor
    · have htake : A.take B.length = ((B ++ ds).take A.length).take B.length := by
        rw [hcon]
      rw [List.take_take, min_eq_left (le_of_lt hlen)] at htake
      rw [List.take_append_eq_append_take, List.take_length, Nat.sub_self] at htake
      simpa using htake
    · have hdrop : A.drop B.length = ((B ++ ds).take A.length).drop B.length := by
        rw [hcon]
      rw [List.drop_take, List.drop_left] at hdrop
      rw [hdrop, List.all_eq_true]
      intro c hc
      exact hds c (List.take_subset _ _ hc)

/-- Finding with a leading match stops at the head line. -/
lemma findLine_cons_true (A l : List Char) (ls : List (List Char))
    (h : takesLead A l = true) : findLine A (l :: ls) = some (l.drop A.length) := by
  simp [findLine, h]

/-- Finding with no leading match skips the head line. -/
lemma findLine_cons_false (A l : List Char) (ls : List (List Char))
    (h : takesLead A l = false) : findLine A (l :: ls) = findLine A ls := by
  simp [findLine, h]

/-- Safety of one earlier summary line against a sought label: fixed text
must not start with the label; a labelled line's label must pass the clash
check. -/
def rowSafe (A : List Char) : SummaryRow → Bool
  | SummaryRow.text t => ¬ takesLead A t.toList
  | SummaryRow.field label _ => noClash A label.toList

/-- Finding a field's label in rendered summary rows, when every earlier row
is safe for it, yields exactly that field's rendered number. -/
lemma findLine_rows (A : List Char) (L : String) (hL : L.toList = A) :
    ∀ (pre : List SummaryRow) (post : List SummaryRow) (n : Nat),
      (∀ r ∈ pre, rowSafe A r = true) →
      findLine A ((pre ++ SummaryRow.field L n :: post).map renderRow) =
        some (natChars n) := by
  intro pre
  induction pre with
  | nil =>
      intro post n _
      simp only [List.nil_append, List.map_cons, renderRow, hL]
      rw [findLine_cons_true _ _ _ (takesLead_append_self A (natChars n))]
      rw [List.drop_left]
  | cons r rs ih =>
      intro post n hsafe
      simp only [List.cons_append, List.map_cons]
      have hr := hsafe r (List.mem_cons_self r rs)
      have hfalse : takesLead A (renderRow r) = false := by
        cases r with
        | text t =>
            have : (¬ takesLead A t.toList : Bool) = true := hr
            simp only [renderRow]
            simpa using this
        | field label k =>
            exact lead_false_of_noClash A label.toList (natChars k)
              (natChars_spec k).2.1 hr
      rw [findLine_cons_false _ _ _ hfalse]
      exact ih post n (fun r2 hr2 => hsafe r2 (List.mem_cons_of_mem _ hr2))

/-- A rendered summary row contains no newline when its fixed part does not
(the appended digits never do). -/
lemma renderRow_no_nl (r : SummaryRow)
    (h : match r with
         | SummaryRow.text t => '\n' ∉ t.toList
         | SummaryRow.field label _ => '\n' ∉ label.toList) :
    '\n' ∉ renderRow r := by
  cases r with
  | text t => exact h
  | field label k =>
      intro hmem
      rcases List.mem_append.mp hmem with hm | hm
      · exact h hm
      · have := (natChars_spec k).2.1 _ hm
        simp at this

/-- No line of the rendered network summary contains a newline. -/
lemma summaryRows_no_nl (m : Metrics) :
    ∀ l ∈ (summaryRows m).map renderRow, '\n' ∉ l := by
  intro l hl
  rw [List.mem_map] at hl
  obtain ⟨r, hr, rfl⟩ := hl
  apply renderRow_no_nl
  fin_cases hr <;> (dsimp only; decide)

/-- The rendered network summary splits back into its rows. -/
lemma network_summary_splitLines (m : Metrics) :
    splitLines ((network_summary m).toList) = (summaryRows m).map renderRow := by
  have hlist : (network_summary m).toList = joinLines ((summaryRows m).map renderRow) := rfl
  rw [hlist]
  exact splitLines_joinLines _ (summaryRows_no_nl m) (by simp [summaryRows])

/-- Parsing one field of the rendered network summary through a decomposition
of its row list recovers the field's value. -/
lemma parseField_of_decomp (m : Metrics) (label : String) (pre post : List SummaryRow)
    (n : Nat) (hdec : summaryRows m = pre ++ SummaryRow.field label n :: post)
    (hsafe : ∀ r ∈ pre, rowSafe label.toList r = true) :
    parseField label (network_summary m) = some n := by
  unfold parseField
  rw [network_summary_splitLines, hdec,
    findLine_rows label.toList label rfl pre post n hsafe]
  exact (natChars_spec n).2.2

/-- C9: parsing the integer after each of the fourteen field labels in the
rendered network-analysis summary header recovers the original value of
every metrics field. -/
theorem network_summary_roundtrip (m : Metrics) :
    parseField ("Total Activities: ") (network_summary m) = some m.total_activities ∧
    parseField ("- Activities without predecessors: ") (network_summary m) = some m.activities_no_pred ∧
    parseField ("- Activities without successors: ") (network_summary m) = some m.activities_no_succ ∧
    parseField ("- Activities with single predecessor: ") (network_summary m) = some m.activities_single_pred ∧
    parseField ("- Activities with multiple predecessors: ") (network_summary m) = some m.activities_multiple_pred ∧
    parseField ("- Activities with single successor: ") (network_summary m) = some m.activities_single_succ ∧
    parseField ("- Activities with multiple successors: ") (network_summary m) = some m.activities_multiple_succ ∧
    parseField ("- Start-to-Start relationships: ") (network_summary m) = some m.ss_relationships ∧
    parseField ("- Finish-to-Finish relationships: ") (network_summary m) = some m.ff_relationships ∧
    parseField ("- Start-to-Finish relationships: ") (network_summary m) = some m.sf_relationships ∧
    parseField ("- Relationships with lag: ") (network_summary m) = some m.relationships_with_lag ∧
    parseField ("- Relationships with negative lag: ") (network_summary m) = some m.relationships_with_negative_lag ∧
    parseField ("- Activities with high float (>10 days): ") (network_summary m) = some m.high_float_activities ∧
    parseField ("- Activities with negative float: ") (network_summary m) = some m.negative_float_activities := by
  refine ⟨?_, ?_, ?_, ?_, ?_, ?_, ?_, ?_, ?_, ?_, ?_, ?_, ?_, ?_⟩
  · exact parseField_of_decomp m ("Total Activities: ")
      [SummaryRow.text (""),
      SummaryRow.text ("Schedule Network Analysis:")]
      _ m.total_activities rfl
      (by intro r hr; fin_cases hr <;> (dsimp only [rowSafe]; decide))
  · exact parseField_of_decomp m ("- Activities without predecessors: ")
      [SummaryRow.text (""),
      SummaryRow.text ("Schedule Network Analysis:"),
      SummaryRow.field ("Total Activities: ") m.total_activities,
      SummaryRow.text ("Network Logic:")]
      _ m.activities_no_pred rfl
      (by intro r hr; fin_cases hr <;> (dsimp only [rowSafe]; decide))
  · exact parseField_of_decomp m ("- Activities without successors: ")
      [SummaryRow.text (""),
      SummaryRow.text ("Schedule Network Analysis:"),
      SummaryRow.field ("Total Activities: ") m.total_activities,
      SummaryRow.text ("Network Logic:"),
      SummaryRow.field ("- Activities without predecessors: ") m.activities_no_pred]
      _ m.activities_no_succ rfl
      (by intro r hr; fin_cases hr <;> (dsimp only [rowSafe]; decide))
  · exact parseField_of_decomp m ("- Activities with single predecessor: ")
      [SummaryRow.text (""),
      SummaryRow.text ("Schedule Network Analysis:"),
      SummaryRow.field ("Total Activities: ") m.total_activities,
      SummaryRow.text ("Network Logic:"),
      SummaryRow.field ("- Activities without predecessors: ") m.activities_no_pred,
      SummaryRow.field ("- Activities without successors: ") m.activities_no_succ]
      _ m.activities_single_pred rfl
      (by intro r hr; fin_cases hr <;> (dsimp only [rowSafe]; decide))
  · exact parseField_of_decomp m ("- Activities with multiple predecessors: ")
      [SummaryRow.text (""),
      SummaryRow.text ("Schedule Network Analysis:"),
      SummaryRow.field ("Total Activities: ") m.total_activities,
      SummaryRow.text ("Network Logic:"),
      SummaryRow.field ("- Activities without predecessors: ") m.activities_no_pred,
      SummaryRow.field ("- Activities without successors: ") m.activities_no_succ,
      SummaryRow.field ("- Activities with single predecessor: ") m.activities_single_pred]
      _ m.activities_multiple_pred rfl
      (by intro r hr; fin_cases hr <;> (dsimp only [rowSafe]; decide))
  · exact parseField_of_decomp m ("- Activities with single successor: ")
      [SummaryRow.text (""),
      SummaryRow.text ("Schedule Network Analysis:"),
      SummaryRow.field ("Total Activities: ") m.total_activities,
      SummaryRow.text ("Network Logic:"),
      SummaryRow.field ("- Activities without predecessors: ") m.activities_no_pred,
      SummaryRow.field ("- Activities without successors: ") m.activities_no_succ,
      SummaryRow.field ("- Activities with single predecessor: ") m.activities_single_pred,
      SummaryRow.field ("- Activities with multiple predecessors: ") m.activities_multiple_pred]
      _ m.activities_single_succ rfl
      (by intro r hr; fin_cases hr <;> (dsimp only [rowSafe]; decide))
  · exact parseField_of_decomp m ("- Activities with multiple successors: ")
      [SummaryRow.text (""),
      SummaryRow.text ("Schedule Network Analysis:"),
      SummaryRow.field ("Total Activities: ") m.total_activities,
      SummaryRow.text ("Network Logic:"),
      SummaryRow.field ("- Activities without predecessors: ") m.activities_no_pred,
      SummaryRow.field ("- Activities without successors: ") m.activities_no_succ,
      SummaryRow.field ("- Activities with single predecessor: ") m.activities_single_pred,
      SummaryRow.field ("- Activities with multiple predecessors: ") m.activities_multiple_pred,
      SummaryRow.field ("- Activities with single successor: ") m.activities_single_succ]
      _ m.activities_multiple_succ rfl
      (by intro r hr; fin_cases hr <;> (dsimp only [rowSafe]; decide))
  · exact parseField_of_decomp m ("- Start-to-Start relationships: ")
      [SummaryRow.text (""),
      SummaryRow.text ("Schedule Network Analysis:"),
      SummaryRow.field ("Total Activities: ") m.total_activities,
      SummaryRow.text ("Network Logic:"),
      SummaryRow.field ("- Activities without predecessors: ") m.activities_no_pred,
      SummaryRow.field ("- Activities without successors: ") m.activities_no_succ,
      SummaryRow.field ("- Activities with single predecessor: ") m.activities_single_pred,
      SummaryRow.field ("- Activities with multiple predecessors: ") m.activities_multiple_pred,
      SummaryRow.field ("- Activities with single successor: ") m.activities_single_succ,
      SummaryRow.field ("- Activities with multiple successors: ") m.activities_multiple_succ,
      SummaryRow.text (""),
      SummaryRow.text ("Relationship Types:")]
      _ m.ss_relationships rfl
      (by intro r hr; fin_cases hr <;> (dsimp only [rowSafe]; decide))
  · exact parseField_of_decomp m ("- Finish-to-Finish relationships: ")
      [SummaryRow.text (""),
      SummaryRow.text ("Schedule Network Analysis:"),
      SummaryRow.field ("Total Activities: ") m.total_activities,
      SummaryRow.text ("Network Logic:"),
      SummaryRow.field ("- Activities without predecessors: ") m.activities_no_pred,
      SummaryRow.field ("- Activities without successors: ") m.activities_no_succ,
      SummaryRow.field ("- Activities with single predecessor: ") m.activities_single_pred,
      SummaryRow.field ("- Activities with multiple predecessors: ") m.activities_multiple_pred,
      SummaryRow.field ("- Activities with single successor: ") m.activities_single_succ,
      SummaryRow.field ("- Activities with multiple successors: ") m.activities_multiple_succ,
      SummaryRow.text (""),
      SummaryRow.text ("Relationship Types:"),
      SummaryRow.field ("- Start-to-Start relationships: ") m.ss_relationships]
      _ m.ff_relationships rfl
      (by intro r hr; fin_cases hr <;> (dsimp only [rowSafe]; decide))
  · exact parseField_of_decomp m ("- Start-to-Finish relationships: ")
      [SummaryRow.text (""),
      SummaryRow.text ("Schedule Network Analysis:"),
      SummaryRow.field ("Total Activities: ") m.total_activities,
      SummaryRow.text ("Network Logic:"),
      SummaryRow.field ("- Activities without predecessors: ") m.activities_no_pred,
      SummaryRow.field ("- Activities without successors: ") m.activities_no_succ,
      SummaryRow.field ("- Activities with single predecessor: ") m.activities_single_pred,
      SummaryRow.field ("- Activities with multiple predecessors: ") m.activities_multiple_pred,
      SummaryRow.field ("- Activities with single successor: ") m.activities_single_succ,
      SummaryRow.field ("- Activities with multiple successors: ") m.activities_multiple_succ,
      SummaryRow.text (""),
      SummaryRow.text ("Relationship Types:"),
      SummaryRow.field ("- Start-to-Start relationships: ") m.ss_relationships,
      SummaryRow.field ("- Finish-to-Finish relationships: ") m.ff_relationships]
      _ m.sf_relationships rfl
      (by intro r hr; fin_cases hr <;> (dsimp only [rowSafe]; decide))
  · exact parseField_of_decomp m ("- Relationships with lag: ")
      [SummaryRow.text (""),
      SummaryRow.text ("Schedule Network Analysis:"),
      SummaryRow.field ("Total Activities: ") m.total_activities,
      SummaryRow.text ("Network Logic:"),
      SummaryRow.field ("- Activities without predecessors: ") m.activities_no_pred,
      SummaryRow.field ("- Activities without successors: ") m.activities_no_succ,
      SummaryRow.field ("- Activities with single predecessor: ") m.activities_single_pred,
      SummaryRow.field ("- Activities with multiple predecessors: ") m.activities_multiple_pred,
      SummaryRow.field ("- Activities with single successor: ") m.activities_single_succ,
      SummaryRow.field ("- Activities with multiple successors: ") m.activities_multiple_succ,
      SummaryRow.text (""),
      SummaryRow.text ("Relationship Types:"),
      SummaryRow.field ("- Start-to-Start relationships: ") m.ss_relationships,
      SummaryRow.field ("- Finish-to-Finish relationships: ") m.ff_relationships,
      SummaryRow.field ("- Start-to-Finish relationships: ") m.sf_relationships]
      _ m.relationships_with_lag rfl
      (by intro r hr; fin_cases hr <;> (dsimp only [rowSafe]; decide))
  · exact parseField_of_decomp m ("- Relationships with negative lag: ")
      [SummaryRow.text (""),
      SummaryRow.text ("Schedule Network Analysis:"),
      SummaryRow.field ("Total Activities: ") m.total_activities,
      SummaryRow.text ("Network Logic:"),
      SummaryRow.field ("- Activities without predecessors: ") m.activities_no_pred,
      SummaryRow.field ("- Activities without successors: ") m.activities_no_succ,
      SummaryRow.field ("- Activities with single predecessor: ") m.activities_single_pred,
      SummaryRow.field ("- Activities with multiple predecessors: ") m.activities_multiple_pred,
      SummaryRow.field ("- Activities with single successor: ") m.activities_single_succ,
      SummaryRow.field ("- Activities with multiple successors: ") m.activities_multiple_succ,
      SummaryRow.text (""),
      SummaryRow.text ("Relationship Types:"),
      SummaryRow.field ("- Start-to-Start relationships: ") m.ss_relationships,
      SummaryRow.field ("- Finish-to-Finish relationships: ") m.ff_relationships,
      SummaryRow.field ("- Start-to-Finish relationships: ") m.sf_relationships,
      SummaryRow.field ("- Relationships with lag: ") m.relationships_with_lag]
      _ m.relationships_with_negative_lag rfl
      (by intro r hr; fin_cases hr <;> (dsimp only [rowSafe]; decide))
  · exact parseField_of_decomp m ("- Activities with high float (>10 days): ")
      [SummaryRow.text (""),
      SummaryRow.text ("Schedule Network Analysis:"),
      SummaryRow.field ("Total Activities: ") m.total_activities,
      SummaryRow.text ("Network Logic:"),
      SummaryRow.field ("- Activities without predecessors: ") m.activities_no_pred,
      SummaryRow.field ("- Activities without successors: ") m.activities_no_succ,
      SummaryRow.field ("- Activities with single predecessor: ") m.activities_single_pred,
      SummaryRow.field ("- Activities with multiple predecessors: ") m.activities_multiple_pred,
      SummaryRow.field ("- Activities with single successor: ") m.activities_single_succ,
      SummaryRow.field ("- Activities with multiple successors: ") m.activities_multiple_succ,
      SummaryRow.text (""),
      SummaryRow.text ("Relationship Types:"),
      SummaryRow.field ("- Start-to-Start relationships: ") m.ss_relationships,
      SummaryRow.field ("- Finish-to-Finish relationships: ") m.ff_relationships,
      SummaryRow.field ("- Start-to-Finish relationships: ") m.sf_relationships,
      SummaryRow.field ("- Relationships with lag: ") m.relationships_with_lag,
      SummaryRow.field ("- Relationships with negative lag: ") m.relationships_with_negative_lag,
      SummaryRow.text (""),
      SummaryRow.text ("Schedule Health Indicators:")]
      _ m.high_float_activities rfl
      (by intro r hr; fin_cases hr <;> (dsimp only [rowSafe]; decide))
  · exact parseField_of_decomp m ("- Activities with negative float: ")
      [SummaryRow.text (""),
      SummaryRow.text ("Schedule Network Analysis:"),
      SummaryRow.field ("Total Activities: ") m.total_activities,
      SummaryRow.text ("Network Logic:"),
      SummaryRow.field ("- Activities without predecessors: ") m.activities_no_pred,
      SummaryRow.field ("- Activities without successors: ") m.activities_no_succ,
      SummaryRow.field ("- Activities with single predecessor: ") m.activities_single_pred,
      SummaryRow.field ("- Activities with multiple predecessors: ") m.activities_multiple_pred,
      SummaryRow.field ("- Activities with single successor: ") m.activities_single_succ,
      SummaryRow.field ("- Activities with multiple successors: ") m.activities_multiple_succ,
      SummaryRow.text (""),
      SummaryRow.text ("Relationship Types:"),
      SummaryRow.field ("- Start-to-Start relationships: ") m.ss_relationships,
      SummaryRow.field ("- Finish-to-Finish relationships: ") m.ff_relationships,
      SummaryRow.field ("- Start-to-Finish relationships: ") m.sf_relationships,
      SummaryRow.field ("- Relationships with lag: ") m.relationships_with_lag,
      SummaryRow.field ("- Relationships with negative lag: ") m.relationships_with_negative_lag,
      SummaryRow.text (""),
      SummaryRow.text ("Schedule Health Indicators:"),
      SummaryRow.field ("- Activities with high float (>10 days): ") m.high_float_activities]
      _ m.negative_float_activities rfl
      (by intro r hr; fin_cases hr <;> (dsimp only [rowSafe]; decide))
